import Mathlib

/-!
# QuizBattle client: the timed challenge attempt (`PlayChallenge.js`)

A shallow embedding of the handlers of `src/frontend/src/pages/PlayChallenge.js`, with the
result computation of `Practice.js`, the response interceptor and `getLeaderboard` of
`apiService.js`, `handleCreateQuestion` of `Admin.js` and the state of `AuthContext.js`.

* Component state (the `useState` cells) is the record `State`.
* A handler is a function of the state snapshot captured by the render that created it
  (React closures read the values of that render) and returns the ordered list of
  `Effect`s it issues: state-setter calls, network calls, notifications, scheduled callbacks.
  `applyEffects` replays the setter calls on a state.
* JavaScript Numbers that hold counts are integers (exact in double precision); the one place
  where the source divides (`correctAnswers / totalQuestions`) is modelled with correctly
  rounded IEEE-754 double arithmetic (`roundDouble`).
* `console.log` calls are not modelled. `toast.success` and `toast.error` are recorded as
  `Effect.toast`. `toast.info` and `toast.warning` are not methods of `react-hot-toast`: calling
  them throws a `TypeError`, recorded as `Effect.throwTypeError`, and the rest of the function
  does not run (`toastCall`).
* A handler of a control is run on the snapshot of the render that shows the control, and the
  handlers it calls see the same snapshot.
* The timer interval and the auto-submit it queues are closures of the render in which the timer
  effect last ran. That effect depends on `quizStarted`, `quizCompleted`, `submitting` and
  `handleAutoSubmit`, not on `timeLeft` or `timeWarnings`; `handleAutoSubmit` is memoised on
  `quizCompleted`, `submitting` and on `handleSubmitQuiz`, which is read at line 73 before its
  declaration at line 198 and so has the same value (`undefined`) in every render that completes.
  So the effect runs again exactly when one of the three flags changes. The functions of the timer
  take the state of that render as their first argument.
* A session is a sequence of `Action`s (user events and timer events); `step` runs the handler
  bound to an action and applies its effects to the current state.
* An uncaught `TypeError` ends the function that raised it and writes nothing. What React does
  with the page after an error raised inside a state updater is not modelled: the state stays as
  it was.
* The setter calls a handler makes after one `await` are applied together: the renders between
  two of them are not modelled.
-/

namespace QuizBattle

/-! ## Data model -/

/-- A question as delivered by `GET /challenges/{id}/play`: its identity and the index of the
correct option (`question.answer` in the source). -/
structure Question where
  id : Nat
  answer : Nat
  deriving DecidableEq, Repr

/-- Challenge metadata used by the handlers: `challenge.time_limit` (minutes). -/
structure Challenge where
  time_limit : Int
  deriving DecidableEq, Repr

/-- The `answers` object: question id ↦ selected option index, as an association list
(first entry for a key is its value; `handleAnswerSelect` keeps keys unique). -/
abbrev Answers := List (Nat × Nat)

/-- Property read `answers[id]`: `none` is JavaScript `undefined`. -/
def Answers.get (answers : Answers) (id : Nat) : Option Nat :=
  match answers with
  | [] => none
  | (k, v) :: rest => if k = id then some v else Answers.get rest id

/-- One entry pushed on `questionResults`: `{...question, userAnswer, isCorrect, isAnswered}`. -/
structure QuestionResult where
  question : Question
  userAnswer : Option Nat
  isCorrect : Bool
  isAnswered : Bool
  deriving DecidableEq, Repr

/-! ## Double-precision arithmetic for `Math.round((correctAnswers / totalQuestions) * 100)` -/

/-- Integer nearest to `N / D`, ties to the even integer (IEEE-754 round-to-nearest-even). -/
def roundHalfEven (N D : Nat) : Nat :=
  let q := N / D
  let r := N % D
  if 2 * r < D then q
  else if D < 2 * r then q + 1
  else if q % 2 = 0 then q else q + 1

/-- Position of the highest set bit: `floorLog2 n = ⌊log₂ n⌋` for `n > 0` (and `0` for `0`). -/
def floorLog2Aux : Nat → Nat → Nat
  | 0, _ => 0
  | fuel + 1, n => if n < 2 then 0 else floorLog2Aux fuel (n / 2) + 1

/-- See `floorLog2Aux`; `n` itself is enough fuel. -/
def floorLog2 (n : Nat) : Nat := floorLog2Aux n n

/-- For positive `n`, `d`: the exponent `e` with `2^e ≤ n / d < 2^(e+1)`. -/
def binade (n d : Nat) : Int :=
  let e0 : Int := (floorLog2 n : Int) - (floorLog2 d : Int)
  if 0 ≤ e0 then
    (if d * 2 ^ e0.toNat ≤ n then e0 else e0 - 1)
  else
    (if d ≤ n * 2 ^ (-e0).toNat then e0 else e0 - 1)

/-- The double nearest to the positive rational `n / d`, returned as a fraction
`(num, den)` with `den` a power of two: the significand is `n / d` scaled into
`[2^52, 2^53)` and rounded to nearest-even. (Normal range only: no overflow or subnormals,
which cannot arise from counts of array elements.) -/
def roundDouble (n d : Nat) : Nat × Nat :=
  let s : Int := 52 - binade n d
  if 0 ≤ s then (roundHalfEven (n * 2 ^ s.toNat) d, 2 ^ s.toNat)
  else (roundHalfEven n (d * 2 ^ (-s).toNat) * 2 ^ (-s).toNat, 1)

/-- JavaScript `Math.round` on the non-negative finite value `num / den`:
`floor(x + 1/2)`, computed exactly. -/
def mathRound (num den : Nat) : Nat :=
  (2 * num + den) / (2 * den)

/-- The source expression `Math.round((correctAnswers / totalQuestions) * 100)` on two counts.
`none` stands for a non-finite result (`0/0 = NaN`, `c/0 = Infinity`). -/
def percentageOf (correctAnswers totalQuestions : Nat) : Option Int :=
  if totalQuestions = 0 then none
  else if correctAnswers = 0 then some 0
  else
    let x := roundDouble correctAnswers totalQuestions   -- correctAnswers / totalQuestions
    let y := roundDouble (x.1 * 100) x.2                 -- (...) * 100
    some (mathRound y.1 y.2 : Nat)

/-- Exact reference value: the integer nearest to `100 * c / t` with halves rounded up,
`floor(100 * c / t + 1/2)`, for `t > 0`. -/
def nearestPercent (c t : Nat) : Int :=
  ((200 * c + t) / (2 * t) : Nat)

/-! ## Result computation (`handleSubmitQuiz`, "Calculate detailed results for display") -/

/-- The result object passed to `setResult`. -/
structure Result where
  correct : Nat
  wrong : Nat
  unanswered : Int
  total : Nat
  score : Int
  percentage : Option Int
  questionResults : List QuestionResult
  timeTaken : Int
  deriving DecidableEq, Repr

/-- The mutable locals of the `questions.forEach` loop. -/
structure Tally where
  correctAnswers : Nat
  wrongAnswers : Nat
  questionResults : List QuestionResult
  deriving DecidableEq, Repr

/-- Body of the `questions.forEach(question => ...)` callback. -/
def tallyStep (answers : Answers) (acc : Tally) (question : Question) : Tally :=
  let userAnswer := answers.get question.id
  let isCorrect : Bool := userAnswer != none && userAnswer == some question.answer
  let isAnswered : Bool := userAnswer != none
  let acc1 : Tally :=
    if isAnswered then
      (if isCorrect then { acc with correctAnswers := acc.correctAnswers + 1 }
       else { acc with wrongAnswers := acc.wrongAnswers + 1 })
    else acc
  { acc1 with questionResults := acc1.questionResults ++ [⟨question, userAnswer, isCorrect, isAnswered⟩] }

/-- The loop over `questions`, starting from `correctAnswers = 0`, `wrongAnswers = 0`,
`questionResults = []`. -/
def tally (questions : List Question) (answers : Answers) : Tally :=
  questions.foldl (tallyStep answers) ⟨0, 0, []⟩

/-- The object built for `setResult` from `questions`, `answers` and the elapsed time. -/
def computeResult (questions : List Question) (answers : Answers) (timeTaken : Int) : Result :=
  let t := tally questions answers
  let totalQuestions := questions.length
  let unanswered : Int := (totalQuestions : Int) - ((t.correctAnswers : Int) + (t.wrongAnswers : Int))
  let score : Int := max 0 ((t.correctAnswers : Int) * 4 - (t.wrongAnswers : Int) * 1)
  let percentage := percentageOf t.correctAnswers totalQuestions
  { correct := t.correctAnswers
    wrong := t.wrongAnswers
    unanswered := unanswered
    total := totalQuestions
    score := score
    percentage := percentage
    questionResults := t.questionResults
    timeTaken := timeTaken }

/-! ## Component state and effects -/

/-- The `timeWarnings` state object. -/
structure TimeWarnings where
  fiveMinute : Bool
  oneMinute : Bool
  thirtySecond : Bool
  deriving DecidableEq, Repr

/-- The `useState` cells of `PlayChallenge`. `skippedQuestions` is the `Set` in insertion
order; `result = none` is `null`; `challenge = none` is `null`. -/
structure State where
  challenge : Option Challenge
  questions : List Question
  currentQuestion : Nat
  answers : Answers
  skippedQuestions : List Nat
  showSkipModal : Bool
  timeLeft : Int
  quizStarted : Bool
  quizCompleted : Bool
  loading : Bool
  submitting : Bool
  result : Option Result
  timeWarnings : TimeWarnings
  deriving DecidableEq, Repr

/-- The four phases of the specification, read off the state flags. -/
inductive Phase
  | NotStarted
  | InProgress
  | Submitting
  | Completed
  deriving DecidableEq, Repr

/-- Phase of a state: `Completed` when `quizCompleted`, `Submitting` when `submitting`,
`InProgress` when `quizStarted`, otherwise `NotStarted`. -/
def State.phase (s : State) : Phase :=
  if s.quizCompleted then Phase.Completed
  else if s.submitting then Phase.Submitting
  else if s.quizStarted then Phase.InProgress
  else Phase.NotStarted

/-- A JavaScript argument value as far as truthiness goes: `undefined`, a boolean, or an
object (such as the click event React passes to an `onClick` handler). -/
inductive JSValue
  | undefined
  | bool (b : Bool)
  | object
  deriving DecidableEq, Repr

/-- JavaScript truthiness (`!v` is its negation). -/
def JSValue.truthy : JSValue → Bool
  | JSValue.undefined => false
  | JSValue.bool b => b
  | JSValue.object => true

/-- Default parameter `forceSubmit = false`: the default is taken only for `undefined`. -/
def JSValue.orFalse : JSValue → JSValue
  | JSValue.undefined => JSValue.bool false
  | v => v

/-- Kinds of `toast` notification used by the page. -/
inductive ToastKind
  | success
  | error
  | info
  | warning
  deriving DecidableEq, Repr

/-- How the awaited `apiService.submitChallenge` promise settles. -/
inductive ApiOutcome
  | resolved
  | rejected
  deriving DecidableEq, Repr

/-- The three keys of the `timeWarnings` object. -/
inductive WarningKind
  | fiveMinute
  | oneMinute
  | thirtySecond
  deriving DecidableEq, Repr

/-- Functional update `prev => ({ ...prev, [kind]: true })` of the `timeWarnings` object. -/
def TimeWarnings.mark (prev : TimeWarnings) : WarningKind → TimeWarnings
  | WarningKind.fiveMinute => { prev with fiveMinute := true }
  | WarningKind.oneMinute => { prev with oneMinute := true }
  | WarningKind.thirtySecond => { prev with thirtySecond := true }

/-- What a handler does, in order: calls of state setters, the network call, notifications
and scheduled callbacks. `throwTypeError` is an uncaught `TypeError`: it is the last thing the
function does. -/
inductive Effect
  | setCurrentQuestion (i : Nat)
  | setAnswer (questionId answerIndex : Nat)
  | clearAnswers
  | addSkipped (questionId : Nat)
  | clearSkipped
  | setShowSkipModal (b : Bool)
  | setTimeLeft (t : Int)
  | setQuizStarted (b : Bool)
  | setQuizCompleted (b : Bool)
  | setSubmitting (b : Bool)
  | setResult (r : Option Result)
  | setTimeWarnings (w : TimeWarnings)
  | markTimeWarning (kind : WarningKind)
  | setLoading (b : Bool)
  | setChallenge (challenge : Challenge)
  | setQuestions (questions : List Question)
  | submitChallenge (answers : Answers) (time_taken : Int)
  | toast (kind : ToastKind) (message : String)
  | scheduleAutoSubmit
  | scheduleLeaderboardRefresh
  | navigate (path : String)
  | preventDefault
  | setReturnValue (value : String)
  | confirmPrompt (message : String)
  | historyPushState
  | throwTypeError (message : String)
  deriving DecidableEq, Repr

/-- Object spread `{...prev, [questionId]: answerIndex}`: an existing key keeps its place and
takes the new value, a new key is added. -/
def Answers.set (prev : Answers) (questionId answerIndex : Nat) : Answers :=
  match prev with
  | [] => [(questionId, answerIndex)]
  | (k, v) :: rest =>
    if k = questionId then (k, answerIndex) :: rest else (k, v) :: Answers.set rest questionId answerIndex

/-- Set update `new Set([...prev, id])`. -/
def addToSet (prev : List Nat) (id : Nat) : List Nat :=
  if id ∈ prev then prev else prev ++ [id]

/-- State after one effect: a setter call writes its cell, everything else leaves the
state alone. -/
def applyEffect (s : State) : Effect → State
  | Effect.setCurrentQuestion i => { s with currentQuestion := i }
  | Effect.setAnswer q a => { s with answers := s.answers.set q a }
  | Effect.clearAnswers => { s with answers := [] }
  | Effect.addSkipped q => { s with skippedQuestions := addToSet s.skippedQuestions q }
  | Effect.clearSkipped => { s with skippedQuestions := [] }
  | Effect.setShowSkipModal b => { s with showSkipModal := b }
  | Effect.setTimeLeft t => { s with timeLeft := t }
  | Effect.setQuizStarted b => { s with quizStarted := b }
  | Effect.setQuizCompleted b => { s with quizCompleted := b }
  | Effect.setSubmitting b => { s with submitting := b }
  | Effect.setResult r => { s with result := r }
  | Effect.setTimeWarnings w => { s with timeWarnings := w }
  | Effect.markTimeWarning kind => { s with timeWarnings := s.timeWarnings.mark kind }
  | Effect.setLoading b => { s with loading := b }
  | Effect.setChallenge challenge => { s with challenge := some challenge }
  | Effect.setQuestions questions => { s with questions := questions }
  | Effect.submitChallenge _ _ => s
  | Effect.toast _ _ => s
  | Effect.scheduleAutoSubmit => s
  | Effect.scheduleLeaderboardRefresh => s
  | Effect.navigate _ => s
  | Effect.preventDefault => s
  | Effect.setReturnValue _ => s
  | Effect.confirmPrompt _ => s
  | Effect.historyPushState => s
  | Effect.throwTypeError _ => s

/-- State after a list of effects, in order. -/
def applyEffects (s : State) (es : List Effect) : State :=
  es.foldl applyEffect s

/-- Whether an effect is the network call `apiService.submitChallenge`. -/
def Effect.isSubmitCall : Effect → Bool
  | Effect.submitChallenge _ _ => true
  | _ => false

/-- Number of `submitChallenge` calls in a trace. -/
def submitCalls (es : List Effect) : Nat :=
  es.countP Effect.isSubmitCall

/-! ## Handlers -/

/-- Whether `toast` has the method. The default export of `react-hot-toast` is a function with
the methods `success`, `error`, `loading`, `custom`, `dismiss`, `remove` and `promise`; it has no
`info` and no `warning`. -/
def ToastKind.isMethod : ToastKind → Bool
  | ToastKind.success => true
  | ToastKind.error => true
  | ToastKind.info => false
  | ToastKind.warning => false

/-- The call `toast.kind(message)`: the notification, or `none` when `toast.kind` is `undefined`,
where the call throws `TypeError: toast.kind is not a function`. -/
def toastCall (kind : ToastKind) (message : String) : Option Effect :=
  if kind.isMethod then some (Effect.toast kind message) else none

/-- Function `handleSubmitQuiz(forceSubmit = false)` run on the snapshot `s`, with `outcome` the
way the awaited `submitChallenge` promise settles. Reading `challenge.time_limit` on a `null`
challenge throws inside the `try`, which lands in `catch` before any call is made. -/
def handleSubmitQuiz (s : State) (forceSubmit : JSValue) (outcome : ApiOutcome) : List Effect :=
  if s.submitting then []
  else if !forceSubmit.orFalse.truthy && s.skippedQuestions.length > 0 then
    [Effect.setShowSkipModal true]
  else
    Effect.setSubmitting true ::
      ((match s.challenge with
        | none => [Effect.toast ToastKind.error "Failed to submit quiz"]
        | some challenge =>
          let timeTaken := challenge.time_limit * 60 - s.timeLeft
          Effect.submitChallenge s.answers timeTaken ::
            (match outcome with
             | ApiOutcome.rejected => [Effect.toast ToastKind.error "Failed to submit quiz"]
             | ApiOutcome.resolved =>
               [ Effect.setResult
                   (some (computeResult s.questions s.answers (challenge.time_limit * 60 - s.timeLeft))),
                 Effect.setQuizCompleted true,
                 Effect.setQuizStarted false,
                 Effect.toast ToastKind.success "Quiz submitted successfully!",
                 Effect.scheduleLeaderboardRefresh ]))
        ++ [Effect.setSubmitting false])

/-- Function `handleAutoSubmit()` as created in the render with state `s`. Past the guard of
line 69 it calls `toast.info` (line 71); that call throws, so `handleSubmitQuiz(true)` of line 72
is not reached. -/
def handleAutoSubmit (s : State) (outcome : ApiOutcome) : List Effect :=
  if s.quizCompleted || s.submitting then []
  else
    match toastCall ToastKind.info "Time is up! Submitting your answers automatically..." with
    | none => [Effect.throwTypeError "toast.info is not a function"]
    | some notification => notification :: handleSubmitQuiz s (JSValue.bool true) outcome

/-- The `setTimeLeft` updater of the timer interval: from the previous value, and the
`timeWarnings` of the render that created the interval, to the value it returns and its side
effects. The value is `none` when the updater throws: at 300, 60 and 30 seconds with the flag
clear it calls `toast.warning`, which throws before `setTimeWarnings(prev => ...)` and before
`return prevTime - 1`. -/
def timerTick (timeWarnings : TimeWarnings) (prevTime : Int) : Option Int × List Effect :=
  if prevTime ≤ 1 then (some 0, [Effect.scheduleAutoSubmit])
  else if prevTime = 300 ∧ !timeWarnings.fiveMinute then
    match toastCall ToastKind.warning "Only 5 minutes remaining!" with
    | none => (none, [Effect.throwTypeError "toast.warning is not a function"])
    | some notification =>
      (some (prevTime - 1), [notification, Effect.markTimeWarning WarningKind.fiveMinute])
  else if prevTime = 60 ∧ !timeWarnings.oneMinute then
    match toastCall ToastKind.warning "Only 1 minute remaining! Quiz will auto-submit." with
    | none => (none, [Effect.throwTypeError "toast.warning is not a function"])
    | some notification =>
      (some (prevTime - 1), [notification, Effect.markTimeWarning WarningKind.oneMinute])
  else if prevTime = 30 ∧ !timeWarnings.thirtySecond then
    match toastCall ToastKind.warning "30 seconds left! Auto-submitting soon..." with
    | none => (none, [Effect.throwTypeError "toast.warning is not a function"])
    | some notification =>
      (some (prevTime - 1), [notification, Effect.markTimeWarning WarningKind.thirtySecond])
  else (some (prevTime - 1), [])

/-- Condition of line 78, under which a run of the timer effect installs the interval. -/
def timerActive (s : State) : Bool :=
  s.quizStarted && decide (s.timeLeft > 0) && !s.quizCompleted && !s.submitting

/-- Whether the interval of the timer effect, which last ran in the render with state `r`,
exists in the state `s`: it was installed under `timerActive r`, and it is cleared as soon as a
dependency changes, so `quizStarted`, `quizCompleted` and `submitting` still have the values of
`r`. `timeLeft` is not a dependency: the interval outlives `timeLeft > 0`. -/
def intervalInstalled (r s : State) : Bool :=
  timerActive r && (s.quizStarted == r.quizStarted) && (s.quizCompleted == r.quizCompleted) &&
    (s.submitting == r.submitting)

/-- The "Submit Quiz" button, `onClick={handleSubmitQuiz}`: React calls the handler with the
click event as its first argument. -/
def submitButtonOnClick (s : State) (outcome : ApiOutcome) : List Effect :=
  handleSubmitQuiz s JSValue.object outcome

/-- Array method `findIndex`, counting from `i`: the index of the first element satisfying `p`, or
`-1`. -/
def findIndexFrom {α : Type} (p : α → Bool) : List α → Nat → Int
  | [], _ => -1
  | x :: xs, i => if p x then (i : Int) else findIndexFrom p xs (i + 1)

/-- Array method `findIndex`. -/
def findIndex {α : Type} (p : α → Bool) (xs : List α) : Int :=
  findIndexFrom p xs 0

/-- The numbers listed in the skip-confirmation modal:
`Array.from(skippedQuestions).map(id => questions.findIndex(q => q.id === id) + 1).sort((a, b) => a - b)`. -/
def skipModalNumbers (s : State) : List Int :=
  (s.skippedQuestions.map (fun questionId =>
    findIndex (fun q : Question => decide (q.id = questionId)) s.questions + 1)).insertionSort (· ≤ ·)

/-- The text shown for the list: `.join(', ')`. -/
def skipModalText (s : State) : String :=
  String.intercalate ", " ((skipModalNumbers s).map toString)

/-- The "Go Back" button of the skip-confirmation modal. -/
def skipModalGoBack (s : State) : List Effect :=
  let firstSkipped := findIndex (fun q : Question => decide (q.id ∈ s.skippedQuestions)) s.questions
  Effect.setShowSkipModal false ::
    (if firstSkipped ≠ -1 then [Effect.setCurrentQuestion firstSkipped.toNat] else [])

/-- The "Confirm Submit" button of the skip-confirmation modal. -/
def skipModalConfirmSubmit (s : State) (outcome : ApiOutcome) : List Effect :=
  Effect.setShowSkipModal false :: handleSubmitQuiz s (JSValue.bool true) outcome

/-- Function `handleStartQuiz()`: the seven setter calls, in source order. -/
def handleStartQuiz : List Effect :=
  [ Effect.setQuizStarted true,
    Effect.setCurrentQuestion 0,
    Effect.clearAnswers,
    Effect.clearSkipped,
    Effect.setQuizCompleted false,
    Effect.setResult none,
    Effect.setTimeWarnings ⟨false, false, false⟩ ]

/-- Function `handleAnswerSelect(questionId, answerIndex)`: the functional update
`setAnswers(prev => ({ ...prev, [questionId]: answerIndex }))`. -/
def handleAnswerSelect (questionId answerIndex : Nat) : List Effect :=
  [Effect.setAnswer questionId answerIndex]

/-- Function `handleNextQuestion()`: `currentQuestion < questions.length - 1` is a comparison of
numbers (the right side is `-1` for an empty list). -/
def handleNextQuestion (s : State) : List Effect :=
  if (s.currentQuestion : Int) < (s.questions.length : Int) - 1 then
    [Effect.setCurrentQuestion (s.currentQuestion + 1)]
  else []

/-- Function `handlePreviousQuestion()`. -/
def handlePreviousQuestion (s : State) : List Effect :=
  if s.currentQuestion > 0 then [Effect.setCurrentQuestion (s.currentQuestion - 1)] else []

/-- Function `handleSkipQuestion()`. Reading `.id` of `questions[currentQuestion]` throws when
the index is out of range, before any setter is called. -/
def handleSkipQuestion (s : State) : List Effect :=
  match s.questions[s.currentQuestion]? with
  | none => []
  | some question =>
    Effect.addSkipped question.id ::
      (if (s.currentQuestion : Int) < (s.questions.length : Int) - 1 then
        [Effect.setCurrentQuestion (s.currentQuestion + 1)]
      else [])

/-- The question indicator buttons, `questions.map((_, index) => ...)`: button `index` has
`onClick={() => setCurrentQuestion(index)}`. -/
def questionIndicators (s : State) : List (List Effect) :=
  (List.range s.questions.length).map (fun index => [Effect.setCurrentQuestion index])

/-- A click on indicator number `index` (nothing happens when there is no such button). -/
def jumpToQuestion (s : State) (index : Nat) : List Effect :=
  ((questionIndicators s)[index]?).getD []

/-- The interval callback of the timer effect that last ran in the render with state `r`, firing
in the state `s`: it calls `setTimeLeft` with the updater `timerTick`, which gets the current
`timeLeft` as `prevTime` and reads the `timeWarnings` of `r`. The side effects of the updater come
first; the value it returns is written last, and nothing is written when it throws. -/
def timerEffectTick (r s : State) : List Effect :=
  if intervalInstalled r s then
    (timerTick r.timeWarnings s.timeLeft).2 ++
      (match (timerTick r.timeWarnings s.timeLeft).1 with
       | some newTime => [Effect.setTimeLeft newTime]
       | none => [])
  else []

/-- The three warning notifications of the timer. -/
def warningToast : WarningKind → Effect
  | WarningKind.fiveMinute => Effect.toast ToastKind.warning "Only 5 minutes remaining!"
  | WarningKind.oneMinute =>
    Effect.toast ToastKind.warning "Only 1 minute remaining! Quiz will auto-submit."
  | WarningKind.thirtySecond =>
    Effect.toast ToastKind.warning "30 seconds left! Auto-submitting soon..."

/-- How often a warning is emitted in a trace. -/
def warningCount (kind : WarningKind) (es : List Effect) : Nat :=
  es.count (warningToast kind)

/-- How the awaited `apiService.getChallengeQuestions` promise settles: rejected (with the
server's `error.response.data.error` text, if any), or resolved with `response.data` holding
`challenge` and `questions` (either may be missing). -/
inductive FetchOutcome
  | rejected (serverError : Option String)
  | resolved (challengeData : Option Challenge) (loadedQuestions : Option (List Question))
  deriving DecidableEq, Repr

/-- Function `loadChallengeData()`. The two early `return`s inside `try` and the `catch` branch
all pass through `finally { setLoading(false) }`. -/
def loadChallengeData (outcome : FetchOutcome) : List Effect :=
  Effect.setLoading true ::
    ((match outcome with
      | FetchOutcome.rejected serverError =>
        [ Effect.toast ToastKind.error
            (match serverError with
             | some message => if message = "" then "Failed to load challenge data" else message
             | none => "Failed to load challenge data"),
          Effect.navigate "/challenges" ]
      | FetchOutcome.resolved none _ =>
        [ Effect.toast ToastKind.error "Challenge data not found",
          Effect.navigate "/challenges" ]
      | FetchOutcome.resolved (some challengeData) loadedQuestions =>
        (match loadedQuestions with
         | none =>
           [ Effect.toast ToastKind.error "No questions available for this challenge",
             Effect.navigate "/challenges" ]
         | some questions =>
           if questions.length = 0 then
             [ Effect.toast ToastKind.error "No questions available for this challenge",
               Effect.navigate "/challenges" ]
           else
             [ Effect.setChallenge challengeData,
               Effect.setQuestions questions,
               Effect.setTimeLeft (challengeData.time_limit * 60) ]))
      ++ [Effect.setLoading false])

/-- The state at mount: the initial values of the `useState` calls. -/
def initialState : State :=
  { challenge := none
    questions := []
    currentQuestion := 0
    answers := []
    skippedQuestions := []
    showSkipModal := false
    timeLeft := 0
    quizStarted := false
    quizCompleted := false
    loading := true
    submitting := false
    result := none
    timeWarnings := ⟨false, false, false⟩ }

/-- The user and timer events of a session, each bound to its handler. A tick and the auto-submit
queued by a tick carry the state of the render in which the timer effect last ran: they run the
closures of that render. -/
inductive Action
  | start
  | selectAnswer (questionId answerIndex : Nat)
  | next
  | previous
  | skip
  | jump (index : Nat)
  | submitClick (outcome : ApiOutcome)
  | autoSubmit (effectRender : State) (outcome : ApiOutcome)
  | goBack
  | confirmSubmit (outcome : ApiOutcome)
  | tick (effectRender : State)
  deriving DecidableEq, Repr

/-- The effects an action has on the state `s`. -/
def actionEffects (s : State) : Action → List Effect
  | Action.start => handleStartQuiz
  | Action.selectAnswer questionId answerIndex => handleAnswerSelect questionId answerIndex
  | Action.next => handleNextQuestion s
  | Action.previous => handlePreviousQuestion s
  | Action.skip => handleSkipQuestion s
  | Action.jump index => jumpToQuestion s index
  | Action.submitClick outcome => submitButtonOnClick s outcome
  | Action.autoSubmit effectRender outcome => handleAutoSubmit effectRender outcome
  | Action.goBack => skipModalGoBack s
  | Action.confirmSubmit outcome => skipModalConfirmSubmit s outcome
  | Action.tick effectRender => timerEffectTick effectRender s

/-- State after an action. -/
def step (s : State) (a : Action) : State :=
  applyEffects s (actionEffects s a)

/-- State after a sequence of actions. -/
def runActions (s : State) (actions : List Action) : State :=
  actions.foldl step s

/-! ## Concrete sessions used in the theorems below -/

/-- A state right after the challenge was loaded: nothing started, nothing answered. -/
def loadedState (challenge : Challenge) (questions : List Question) : State :=
  { challenge := some challenge
    questions := questions
    currentQuestion := 0
    answers := []
    skippedQuestions := []
    showSkipModal := false
    timeLeft := challenge.time_limit * 60
    quizStarted := false
    quizCompleted := false
    loading := false
    submitting := false
    result := none
    timeWarnings := ⟨false, false, false⟩ }

/-- Five questions with ids 1..5. -/
def fiveQuestions : List Question :=
  [⟨1, 0⟩, ⟨2, 1⟩, ⟨3, 2⟩, ⟨4, 3⟩, ⟨5, 0⟩]

/-- All five answered with the correct option. -/
def fiveCorrectAnswers : Answers :=
  [(1, 0), (2, 1), (3, 2), (4, 3), (5, 0)]

/-- Three questions with ids 11, 12, 13. -/
def threeQuestions : List Question :=
  [⟨11, 2⟩, ⟨12, 0⟩, ⟨13, 1⟩]

/-- Question 11 answered correctly, question 13 answered wrongly, question 12 not answered. -/
def mixedAnswers : Answers :=
  [(11, 2), (13, 3)]

/-- Forty questions with ids 0..39, option 0 correct in each. -/
def fortyQuestions : List Question :=
  (List.range 40).map (fun i => ⟨i, 0⟩)

/-- The first 23 of the forty answered, all correctly; the other 17 left unanswered. -/
def twentyThreeCorrect : Answers :=
  (List.range 23).map (fun i => (i, 0))

/-- A session in progress on the three questions: 10 minute limit, 8 minutes left, question 11
answered correctly, question 13 wrongly, nothing skipped, showing the last question. -/
def inProgressState : State :=
  { loadedState ⟨10⟩ threeQuestions with
    quizStarted := true
    answers := mixedAnswers
    currentQuestion := 2
    timeLeft := 480 }

/-- The same session with the second question (id 12) skipped. -/
def skippedState : State :=
  { inProgressState with skippedQuestions := [12] }

/-- The session with question 12 skipped when one second is left. -/
def lastSecondState : State :=
  { skippedState with timeLeft := 1 }

/-- The state reached from `inProgressState` by a forced submit whose network call succeeds. -/
def completedState : State :=
  applyEffects inProgressState
    (handleSubmitQuiz inProgressState (JSValue.bool true) ApiOutcome.resolved)

/-- The same session while a submission is in flight (`setSubmitting(true)` applied). -/
def submittingState : State :=
  applyEffects inProgressState [Effect.setSubmitting true]

/-- Which of the component's screens the render function returns. -/
inductive View
  | loading
  | noQuestions
  | notFound
  | results
  | start
  | inProgress
  deriving DecidableEq, Repr

/-- The chain of early returns of the render function: the loading spinner, "No Questions
Available", "Challenge Not Found", the results, the start screen, and last the quiz itself
(the only screen with the Submit Quiz button and the skip-confirmation modal). -/
def view (s : State) : View :=
  if s.loading then View.loading
  else if s.challenge.isSome && s.questions.length == 0 then View.noQuestions
  else if s.challenge.isNone then View.notFound
  else if s.quizCompleted && s.result.isSome then View.results
  else if !s.quizStarted then View.start
  else View.inProgress


/-- A session started on a freshly loaded challenge: `handleStartQuiz` applied to
`loadedState`. -/
def startedState (challenge : Challenge) (questions : List Question) : State :=
  applyEffects (loadedState challenge questions) handleStartQuiz

/-- Everything a sequence of actions does: the effects of each action on the state left by the
previous ones, in order. -/
def actionsTrace : State → List Action → List Effect
  | _, [] => []
  | s, a :: rest => actionEffects s a ++ actionsTrace (step s a) rest

/-! ## Navigation-away guard (`PlayChallenge.js`, first effect) -/

/-- Condition under which the effect registers the `beforeunload` and `popstate` listeners
(and pushes a history entry). -/
def navigationGuardInstalled (s : State) : Bool :=
  s.quizStarted && !s.quizCompleted

/-- Listener `handleBeforeUnload(e)`. -/
def handleBeforeUnload (s : State) : List Effect :=
  if s.quizStarted && !s.quizCompleted then
    [Effect.preventDefault, Effect.setReturnValue ""]
  else []

/-- Listener `handlePopState(e)`, with `confirmLeave` the answer the user gives to
`window.confirm`. -/
def handlePopState (s : State) (confirmLeave : Bool) : List Effect :=
  if s.quizStarted && !s.quizCompleted then
    Effect.preventDefault ::
      Effect.confirmPrompt "Are you sure you want to leave? Your progress will be lost." ::
      (if !confirmLeave then [Effect.historyPushState]
       else [Effect.setQuizStarted false, Effect.navigate "/challenges"])
  else []

/-- What happens on a `beforeunload` event: the listener runs only when it is registered. -/
def onBeforeUnload (s : State) : List Effect :=
  if navigationGuardInstalled s then handleBeforeUnload s else []

/-- What happens on a `popstate` event: the listener runs only when it is registered. -/
def onPopState (s : State) (confirmLeave : Bool) : List Effect :=
  if navigationGuardInstalled s then handlePopState s confirmLeave else []

/-! ## Controls offered by the rendered screen -/

/-- Whether the rendered screen offers the control (or the installed timer the event) behind an
action: the start button exists on the start screen only; the option inputs of the displayed
question, Previous (disabled on the first question), Skip, the question indicators, and Next or
Submit Quiz (the latter on the last question, disabled while submitting) exist on the quiz
screen only; the two modal buttons exist on the quiz screen while `showSkipModal`; a tick needs
the installed interval. The auto-submit callback is queued by a tick and can always run. -/
def controlAvailable (s : State) : Action → Bool
  | Action.start => decide (view s = View.start)
  | Action.selectAnswer questionId _ =>
    decide (view s = View.inProgress) &&
      (match s.questions[s.currentQuestion]? with
       | some question => decide (question.id = questionId)
       | none => false)
  | Action.next =>
    decide (view s = View.inProgress) &&
      !decide ((s.currentQuestion : Int) = (s.questions.length : Int) - 1)
  | Action.previous => decide (view s = View.inProgress) && !decide (s.currentQuestion = 0)
  | Action.skip => decide (view s = View.inProgress)
  | Action.jump index => decide (view s = View.inProgress) && decide (index < s.questions.length)
  | Action.submitClick _ =>
    decide (view s = View.inProgress) &&
      decide ((s.currentQuestion : Int) = (s.questions.length : Int) - 1) && !s.submitting
  | Action.autoSubmit _ _ => true
  | Action.goBack => decide (view s = View.inProgress) && s.showSkipModal
  | Action.confirmSubmit _ => decide (view s = View.inProgress) && s.showSkipModal
  | Action.tick effectRender => intervalInstalled effectRender s

/-- State after an action requested on the rendered screen: the handler runs when the screen
offers the control, otherwise nothing happens. -/
def userStep (s : State) (a : Action) : State :=
  if controlAvailable s a then step s a else s

/-- The events of a page visit: the settling of a challenge fetch, or a session action. -/
inductive PageEvent
  | loaded (outcome : FetchOutcome)
  | action (a : Action)
  deriving DecidableEq, Repr

/-- State after a page event. -/
def pageStep (s : State) : PageEvent → State
  | PageEvent.loaded outcome => applyEffects s (loadChallengeData outcome)
  | PageEvent.action a => step s a

/-- State after a sequence of page events. -/
def runPage (s : State) (events : List PageEvent) : State :=
  events.foldl pageStep s

/-! ## Practice quiz result (`Practice.js`, `handleSubmitQuiz`) -/

/-- The `result` object of the practice quiz. -/
structure PracticeResult where
  correct : Nat
  wrong : Nat
  unanswered : Int
  total : Nat
  score : Int
  percentage : Option Int
  deriving DecidableEq, Repr

/-- Body of the `questions.forEach` callback of the practice quiz on the pair
`(correctAnswers, wrongAnswers)`. -/
def practiceTallyStep (answers : Answers) (acc : Nat × Nat) (question : Question) : Nat × Nat :=
  match answers.get question.id with
  | none => acc
  | some userAnswer =>
    if userAnswer = question.answer then (acc.1 + 1, acc.2) else (acc.1, acc.2 + 1)

/-- The result computed by `handleSubmitQuiz` of the practice quiz. -/
def practiceResult (questions : List Question) (answers : Answers) : PracticeResult :=
  let counts := questions.foldl (practiceTallyStep answers) (0, 0)
  let correctAnswers := counts.1
  let wrongAnswers := counts.2
  let totalScore : Int := max 0 ((correctAnswers : Int) * 4 - (wrongAnswers : Int) * 1)
  { correct := correctAnswers
    wrong := wrongAnswers
    unanswered := (questions.length : Int) - ((correctAnswers : Int) + (wrongAnswers : Int))
    total := questions.length
    score := totalScore
    percentage := percentageOf correctAnswers questions.length }

/-! ## REST client (`apiService.js`) -/

/-- What the response interceptor can touch in the browser: the `token` entries of
`localStorage` and `sessionStorage`, and `window.location.href`. -/
structure Browser where
  localToken : Option String
  sessionToken : Option String
  location : String
  deriving DecidableEq, Repr

/-- A failed request as the interceptor sees it: `error.response?.status` (`none` when there
is no response, as for a network error). -/
structure ApiError where
  status : Option Nat
  message : String
  deriving DecidableEq, Repr

/-- The error callback of the response interceptor: the browser state it leaves and the error
it rejects with (`return Promise.reject(error)`). -/
def responseErrorInterceptor (b : Browser) (error : ApiError) : Browser × ApiError :=
  if error.status = some 401 then
    ({ b with localToken := none, sessionToken := none, location := "/login" }, error)
  else if error.status = some 403 then
    (b, error)
  else
    (b, error)

/-- A GET request: the path and the `params` object as a list of key-value pairs. -/
structure GetRequest where
  url : String
  params : List (String × String)
  deriving DecidableEq, Repr

/-- Truthiness of a `challengeId` that is `null` or a string. -/
def idTruthy : Option String → Bool
  | none => false
  | some id => id != ""

/-- Method `getLeaderboard(type = 'global', challengeId = null)`; `type = none` is a missing
argument. -/
def getLeaderboard (type : Option String) (challengeId : Option String) : GetRequest :=
  let type := type.getD "global"
  if type = "challenge" ∧ idTruthy challengeId = true then
    { url := "/leaderboard/" ++ challengeId.getD "", params := [] }
  else
    { url := "/leaderboard"
      params := ("type", type) ::
        (if idTruthy challengeId then [("challenge_id", challengeId.getD "")] else []) }

/-! ## Admin create-question form (`Admin.js`, `handleCreateQuestion`) -/

/-- The characters `String.prototype.trim` strips: ECMAScript WhiteSpace and LineTerminator. -/
def jsWhitespace (c : Char) : Bool :=
  c.toNat = 0x09 || c.toNat = 0x0A || c.toNat = 0x0B || c.toNat = 0x0C || c.toNat = 0x0D ||
  c.toNat = 0x20 || c.toNat = 0xA0 || c.toNat = 0x1680 ||
  (0x2000 ≤ c.toNat && c.toNat ≤ 0x200A) ||
  c.toNat = 0x2028 || c.toNat = 0x2029 || c.toNat = 0x202F || c.toNat = 0x205F ||
  c.toNat = 0x3000 || c.toNat = 0xFEFF

/-- Method `trim()` on the characters of a string. -/
def jsTrim (cs : List Char) : List Char :=
  ((cs.dropWhile jsWhitespace).reverse.dropWhile jsWhitespace).reverse

/-- The test `!opt.trim()`: the trimmed string is empty. -/
def optionBlank (opt : String) : Bool :=
  (jsTrim opt.data).isEmpty

/-- The `newQuestion` form state. -/
structure NewQuestion where
  text : String
  options : List String
  answer : Nat
  difficulty : String
  exam_type : String
  deriving DecidableEq, Repr

/-- What `handleCreateQuestion` does, in order. -/
inductive AdminEffect
  | preventDefault
  | toastError (message : String)
  | toastSuccess (message : String)
  | createQuestion (data : NewQuestion)
  | setShowCreateQuestion (b : Bool)
  | setNewQuestion (form : NewQuestion)
  | fetchQuestions
  | fetchDashboardData
  deriving DecidableEq, Repr

/-- The empty form the handler resets to after a successful creation. -/
def emptyQuestionForm : NewQuestion :=
  { text := "", options := ["", "", "", ""], answer := 0, difficulty := "easy",
    exam_type := "CBSE 11" }

/-- Function `handleCreateQuestion(e)` on the form `newQuestion`; `created` tells whether the
awaited `createQuestion` call resolves, `serverError` is `error.response?.data?.error`. -/
def handleCreateQuestion (newQuestion : NewQuestion) (created : Bool)
    (serverError : Option String) : List AdminEffect :=
  AdminEffect.preventDefault ::
    (if newQuestion.options.any optionBlank then
      [AdminEffect.toastError "All options must be filled"]
    else
      AdminEffect.createQuestion newQuestion ::
        (if created then
          [ AdminEffect.toastSuccess "Question created successfully!",
            AdminEffect.setShowCreateQuestion false,
            AdminEffect.setNewQuestion emptyQuestionForm,
            AdminEffect.fetchQuestions,
            AdminEffect.fetchDashboardData ]
        else
          [ AdminEffect.toastError
              (match serverError with
               | some message => if message = "" then "Failed to create question" else message
               | none => "Failed to create question") ]))

/-- Whether an effect is the `createQuestion` network call. -/
def AdminEffect.isCreateCall : AdminEffect → Bool
  | AdminEffect.createQuestion _ => true
  | _ => false

/-- Whether an effect writes the form or refreshes the question list. -/
def AdminEffect.writesFormOrList : AdminEffect → Bool
  | AdminEffect.setNewQuestion _ => true
  | AdminEffect.setShowCreateQuestion _ => true
  | AdminEffect.fetchQuestions => true
  | AdminEffect.fetchDashboardData => true
  | _ => false

/-! ## Authentication context (`AuthContext.js`) -/

/-- The state of `AuthProvider` with the token stores it writes: `user`, `admin` and `token`
(`none` is `null`), the `token` entry of `localStorage`, and the token held by `apiService`. -/
structure AuthState where
  user : Option String
  admin : Option String
  token : Option String
  storedToken : Option String
  apiToken : Option String
  loading : Bool
  deriving DecidableEq, Repr

/-- The state at mount with nothing stored. -/
def AuthState.initial : AuthState :=
  { user := none, admin := none, token := none, storedToken := none, apiToken := none,
    loading := true }

/-- Function `logout()`. -/
def AuthState.logout (a : AuthState) : AuthState :=
  { a with storedToken := none, token := none, user := none, admin := none, apiToken := none }

/-- The ways the calls of the provider settle. `none` for user or admin data is a missing
(falsy) field of the response. -/
inductive AuthEvent
  | loginResolved (access_token : String) (userData : Option String)
  | loginRejected
  | adminLoginResolved (access_token : String) (adminData : Option String)
  | adminLoginRejected
  | registerResolved
  | registerRejected
  | profileResolved (admin : Option String) (user : Option String)
  | profileRejected (status : Option Nat)
  | logout
  deriving DecidableEq, Repr

/-- State after a call has settled: `login`, `adminLogin`, `register`, `fetchProfile` (which
ends with `setLoading(false)` in `finally`), `logout`. -/
def AuthState.apply (a : AuthState) : AuthEvent → AuthState
  | AuthEvent.loginResolved access_token userData =>
    { a with storedToken := some access_token, token := some access_token,
             apiToken := some access_token, user := userData, admin := none }
  | AuthEvent.loginRejected => a
  | AuthEvent.adminLoginResolved access_token adminData =>
    { a with storedToken := some access_token, token := some access_token,
             apiToken := some access_token, admin := adminData, user := none }
  | AuthEvent.adminLoginRejected => a
  | AuthEvent.registerResolved => a
  | AuthEvent.registerRejected => a
  | AuthEvent.profileResolved admin user =>
    (match admin, user with
     | some adminData, _ => { a with admin := some adminData, user := none, loading := false }
     | none, some userData => { a with user := some userData, admin := none, loading := false }
     | none, none => { a with loading := false })
  | AuthEvent.profileRejected status =>
    if status = some 401 then { a.logout with loading := false } else { a with loading := false }
  | AuthEvent.logout => a.logout

/-- State after a sequence of settled calls. -/
def AuthState.run (a : AuthState) (events : List AuthEvent) : AuthState :=
  events.foldl AuthState.apply a

/-- Context value `isUser: !!user`. -/
def AuthState.isUser (a : AuthState) : Bool := a.user.isSome

/-- Context value `isAdmin: !!admin`. -/
def AuthState.isAdmin (a : AuthState) : Bool := a.admin.isSome

/-- Context value `isAuthenticated: !!(user || admin)`. -/
def AuthState.isAuthenticated (a : AuthState) : Bool := (a.user <|> a.admin).isSome

/-! ## Result computation: counts, score, conservation -/

/-- What one loop iteration does to the two counters. -/
theorem tallyStep_counts (answers : Answers) (acc : Tally) (q : Question) :
    (tallyStep answers acc q).correctAnswers =
        acc.correctAnswers + (if answers.get q.id = some q.answer then 1 else 0) ∧
    (tallyStep answers acc q).wrongAnswers =
        acc.wrongAnswers +
          (if (answers.get q.id).isSome ∧ answers.get q.id ≠ some q.answer then 1 else 0) := by
  unfold tallyStep
  cases h : answers.get q.id with
  | none => simp
  | some a =>
    by_cases hc : a = q.answer
    · simp [hc]
    · simp [hc]

/-- The loop adds to each counter the number of questions of its kind. -/
theorem foldl_tallyStep_counts (answers : Answers) (qs : List Question) (acc : Tally) :
    (qs.foldl (tallyStep answers) acc).correctAnswers =
        acc.correctAnswers + qs.countP (fun q => decide (answers.get q.id = some q.answer)) ∧
    (qs.foldl (tallyStep answers) acc).wrongAnswers =
        acc.wrongAnswers +
          qs.countP (fun q => decide ((answers.get q.id).isSome ∧ answers.get q.id ≠ some q.answer)) := by
  induction qs generalizing acc with
  | nil => simp
  | cons q qs ih =>
    have hs := tallyStep_counts answers acc q
    have h := ih (tallyStep answers acc q)
    simp only [List.foldl_cons, List.countP_cons]
    rw [h.1, h.2, hs.1, hs.2]
    constructor
    · by_cases hc : answers.get q.id = some q.answer
      · simp [hc]; omega
      · simp [hc]
    · by_cases hc : (answers.get q.id).isSome ∧ answers.get q.id ≠ some q.answer
      · simp only [hc, and_self, if_true, decide_True]; simp; omega
      · simp only [hc, if_false, decide_False]; simp

/-- The three kinds of question partition the list. -/
theorem countP_partition (answers : Answers) (qs : List Question) :
    qs.countP (fun q => decide (answers.get q.id = some q.answer)) +
      qs.countP (fun q => decide ((answers.get q.id).isSome ∧ answers.get q.id ≠ some q.answer)) +
      qs.countP (fun q => decide (answers.get q.id = none)) = qs.length := by
  induction qs with
  | nil => simp
  | cons q qs ih =>
    simp only [List.countP_cons, List.length_cons]
    cases h : answers.get q.id with
    | none => simp at ih ⊢; omega
    | some a =>
      by_cases hc : a = q.answer
      · simp [hc] at ih ⊢; omega
      · simp [hc] at ih ⊢; omega


/-- C1: the score of the computed result is `max(0, 4*correct - wrong)` for the counts the
computation produced; it is never negative, and it is `0` when nothing was answered correctly. -/
theorem C1_score_formula (questions : List Question) (answers : Answers) (timeTaken : Int) :
    (computeResult questions answers timeTaken).score =
        max 0 (4 * ((computeResult questions answers timeTaken).correct : Int) -
          ((computeResult questions answers timeTaken).wrong : Int)) ∧
    0 ≤ (computeResult questions answers timeTaken).score ∧
    ((computeResult questions answers timeTaken).correct = 0 →
      (computeResult questions answers timeTaken).score = 0) := by
  simp only [computeResult]
  refine ⟨?_, le_max_left _ _, ?_⟩
  · congr 1; ring
  · intro h
    rw [h]
    simp

/-- C2: `correct` is the number of questions whose id has an entry in `answers` equal to the
correct option index, `wrong` the number whose entry differs from it, and the questions without
an entry are exactly the `unanswered` ones. Five questions all answered correctly give
correct 5, wrong 0, unanswered 0, score 20, percentage 100. -/
theorem C2_result_counts :
    (∀ (questions : List Question) (answers : Answers) (timeTaken : Int),
      (computeResult questions answers timeTaken).correct =
          questions.countP (fun q => decide (answers.get q.id = some q.answer)) ∧
      (computeResult questions answers timeTaken).wrong =
          questions.countP
            (fun q => decide ((answers.get q.id).isSome ∧ answers.get q.id ≠ some q.answer)) ∧
      (computeResult questions answers timeTaken).unanswered =
          (questions.countP (fun q => decide (answers.get q.id = none)) : Nat)) ∧
    ((computeResult fiveQuestions fiveCorrectAnswers 120).correct = 5 ∧
     (computeResult fiveQuestions fiveCorrectAnswers 120).wrong = 0 ∧
     (computeResult fiveQuestions fiveCorrectAnswers 120).unanswered = 0 ∧
     (computeResult fiveQuestions fiveCorrectAnswers 120).score = 20 ∧
     (computeResult fiveQuestions fiveCorrectAnswers 120).percentage = some 100) := by
  refine ⟨?_, by decide⟩
  intro questions answers timeTaken
  have h := foldl_tallyStep_counts answers questions ⟨0, 0, []⟩
  have hp := countP_partition answers questions
  simp only [Nat.zero_add] at h
  simp only [computeResult, tally]
  refine ⟨h.1, h.2, ?_⟩
  rw [h.1, h.2]
  omega

/-- C3: in the computed result `correct + wrong + unanswered = total`, where `total` is the
number of questions; `unanswered` is non-negative (`correct` and `wrong` are counters that start
at 0 and are only incremented). -/
theorem C3_counts_add_up (questions : List Question) (answers : Answers) (timeTaken : Int) :
    ((computeResult questions answers timeTaken).correct : Int) +
        ((computeResult questions answers timeTaken).wrong : Int) +
        (computeResult questions answers timeTaken).unanswered =
      ((computeResult questions answers timeTaken).total : Int) ∧
    (computeResult questions answers timeTaken).total = questions.length ∧
    0 ≤ ((computeResult questions answers timeTaken).correct : Int) ∧
    0 ≤ ((computeResult questions answers timeTaken).wrong : Int) ∧
    0 ≤ (computeResult questions answers timeTaken).unanswered := by
  have h := foldl_tallyStep_counts answers questions ⟨0, 0, []⟩
  have hp := countP_partition answers questions
  simp only [Nat.zero_add] at h
  simp only [computeResult, tally]
  rw [h.1, h.2]
  refine ⟨by omega, trivial, by omega, by omega, by omega⟩

/-- C4: on 40 questions with 23 correct the source expression
`Math.round((correctAnswers / totalQuestions) * 100)` yields 57, because the double product is
`57.49999999999999`, while `23 / 40 * 100 = 57.5` rounded to the nearest integer with halves
up is 58. On the three-question session of the specification (1 correct, 1 wrong,
1 unanswered) the percentage is 33 and the score 3. -/
theorem C4_percentage_rounding_diverges :
    (computeResult fortyQuestions twentyThreeCorrect 0).correct = 23 ∧
    (computeResult fortyQuestions twentyThreeCorrect 0).total = 40 ∧
    (computeResult fortyQuestions twentyThreeCorrect 0).percentage = some 57 ∧
    nearestPercent 23 40 = 58 ∧
    (computeResult threeQuestions mixedAnswers 0).percentage = some 33 ∧
    (computeResult threeQuestions mixedAnswers 0).score = 3 := by
  decide


/-! ## The closures of the timer effect -/

/-- The auto-submit handler returns at its guard or throws at `toast.info`: it never reaches
`handleSubmitQuiz(true)`. -/
theorem handleAutoSubmit_cases (r : State) (outcome : ApiOutcome) :
    handleAutoSubmit r outcome = [] ∨
    handleAutoSubmit r outcome = [Effect.throwTypeError "toast.info is not a function"] := by
  unfold handleAutoSubmit
  split_ifs
  · exact Or.inl rfl
  · exact Or.inr (by simp [toastCall, ToastKind.isMethod])

/-- The auto-submit handler issues no `submitChallenge` call and writes no state. -/
theorem handleAutoSubmit_inert (r s : State) (outcome : ApiOutcome) :
    submitCalls (handleAutoSubmit r outcome) = 0 ∧
    applyEffects s (handleAutoSubmit r outcome) = s := by
  rcases handleAutoSubmit_cases r outcome with h | h <;> rw [h] <;> exact ⟨rfl, rfl⟩

/-- The four things a tick can do: nothing (no interval), throw at `toast.warning`, write 0 and
queue the auto-submit (`prevTime <= 1`), or write `prevTime - 1`. -/
theorem timerEffectTick_cases (r s : State) :
    timerEffectTick r s = [] ∨
    timerEffectTick r s = [Effect.throwTypeError "toast.warning is not a function"] ∨
    (s.timeLeft ≤ 1 ∧ timerEffectTick r s = [Effect.scheduleAutoSubmit, Effect.setTimeLeft 0]) ∨
    (1 < s.timeLeft ∧ timerEffectTick r s = [Effect.setTimeLeft (s.timeLeft - 1)]) := by
  unfold timerEffectTick timerTick
  split_ifs with h0 h1 h2 h3 h4
  · exact Or.inr (Or.inr (Or.inl ⟨h1, rfl⟩))
  · exact Or.inr (Or.inl (by simp [toastCall, ToastKind.isMethod]))
  · exact Or.inr (Or.inl (by simp [toastCall, ToastKind.isMethod]))
  · exact Or.inr (Or.inl (by simp [toastCall, ToastKind.isMethod]))
  · exact Or.inr (Or.inr (Or.inr ⟨by omega, rfl⟩))
  · exact Or.inl rfl

/-- An interval exists only in the phase InProgress. -/
theorem intervalInstalled_phase (r s : State) (h : intervalInstalled r s = true) :
    s.phase = Phase.InProgress := by
  simp only [intervalInstalled, timerActive, Bool.and_eq_true, beq_iff_eq, decide_eq_true_eq,
    Bool.not_eq_true'] at h
  obtain ⟨⟨⟨⟨⟨⟨hq, -⟩, hc⟩, hsub⟩, e1⟩, e2⟩, e3⟩ := h
  simp [State.phase, e1, e2, e3, hq, hc, hsub]

/-! ## Submission guard -/

/-- With `submitting = true` both submit handlers return at their first line. -/
theorem submit_noop_while_submitting (s : State) (forceSubmit : JSValue) (outcome : ApiOutcome)
    (h : s.submitting = true) :
    handleSubmitQuiz s forceSubmit outcome = [] ∧ handleAutoSubmit s outcome = [] := by
  simp [handleSubmitQuiz, handleAutoSubmit, h]

/-- With `quizCompleted = true` the auto-submit handler returns at its first line. -/
theorem autoSubmit_noop_when_completed (s : State) (outcome : ApiOutcome)
    (h : s.quizCompleted = true) : handleAutoSubmit s outcome = [] := by
  simp [handleAutoSubmit, h]

/-- Truthiness is not changed by the default-parameter step. -/
theorem truthy_orFalse (v : JSValue) : v.orFalse.truthy = v.truthy := by
  cases v <;> rfl

/-- A submit that passes both guards on a loaded challenge: the trace starts with
`setSubmitting(true)` and the `submitChallenge` call, and contains exactly one such call. -/
theorem handleSubmitQuiz_proceeds (s : State) (forceSubmit : JSValue) (outcome : ApiOutcome)
    (challenge : Challenge) (hch : s.challenge = some challenge) (hsub : s.submitting = false)
    (hgo : forceSubmit.truthy = true ∨ s.skippedQuestions = []) :
    (∃ rest, handleSubmitQuiz s forceSubmit outcome =
        Effect.setSubmitting true ::
          Effect.submitChallenge s.answers (challenge.time_limit * 60 - s.timeLeft) :: rest) ∧
    submitCalls (handleSubmitQuiz s forceSubmit outcome) = 1 ∧
    Effect.setShowSkipModal true ∉ handleSubmitQuiz s forceSubmit outcome := by
  have hguard : (!forceSubmit.orFalse.truthy && decide (s.skippedQuestions.length > 0)) = false := by
    rw [truthy_orFalse]
    rcases hgo with h | h
    · simp [h]
    · simp [h]
  cases outcome <;>
    simp [handleSubmitQuiz, hsub, hguard, hch, submitCalls, Effect.isSubmitCall, List.countP_cons]

/-- C5 fails as stated: in the Completed state reached by a successful submission
(`quizCompleted = true`, and `submitting = false` again after the `finally`),
`handleSubmitQuiz(true)` is not a no-op: it guards on `submitting` only and issues another
`submitChallenge` call. -/
theorem C5_completed_state_resubmits :
    completedState.quizCompleted = true ∧
    completedState.submitting = false ∧
    completedState.phase = Phase.Completed ∧
    submitCalls (handleSubmitQuiz completedState (JSValue.bool true) ApiOutcome.resolved) = 1 ∧
    (handleSubmitQuiz completedState (JSValue.bool true) ApiOutcome.resolved).take 2 =
      [Effect.setSubmitting true, Effect.submitChallenge mixedAnswers 120] := by
  decide

/-- C5, amended: while `submitting = true` every submit request (`handleSubmitQuiz`, forced or
not, and `handleAutoSubmit`) does nothing at all: no effect, hence no `submitChallenge` call and
no state change. Once `quizCompleted = true`, `handleAutoSubmit` does nothing at all, and with a
result set the screen shown is not the quiz screen, the only one whose controls call
`handleSubmitQuiz`. -/
theorem C5_submit_guards (s : State) (forceSubmit : JSValue) (outcome : ApiOutcome) :
    (s.submitting = true →
      handleSubmitQuiz s forceSubmit outcome = [] ∧ handleAutoSubmit s outcome = [] ∧
      submitCalls (handleSubmitQuiz s forceSubmit outcome) = 0 ∧
      applyEffects s (handleSubmitQuiz s forceSubmit outcome) = s) ∧
    (s.quizCompleted = true →
      handleAutoSubmit s outcome = [] ∧
      submitCalls (handleAutoSubmit s outcome) = 0 ∧
      applyEffects s (handleAutoSubmit s outcome) = s) ∧
    (s.quizCompleted = true → s.result ≠ none → view s ≠ View.inProgress) := by
  refine ⟨?_, ?_, ?_⟩
  · intro h
    obtain ⟨h1, h2⟩ := submit_noop_while_submitting s forceSubmit outcome h
    rw [h1]
    exact ⟨rfl, h2, rfl, rfl⟩
  · intro h
    rw [autoSubmit_noop_when_completed s outcome h]
    exact ⟨rfl, rfl, rfl⟩
  · intro hc hr
    have hsome : s.result.isSome = true := Option.isSome_iff_ne_none.mpr hr
    unfold view
    split
    · simp
    · split
      · simp
      · split
        · simp
        · simp [hc, hsome]

/-- Witness for C5 (amended): the guards at a state with a submission in flight and at the
Completed state. -/
theorem C5_submit_guards_witness :
    (submittingState.submitting = true ∧
      handleSubmitQuiz submittingState (JSValue.bool true) ApiOutcome.resolved = [] ∧
      handleAutoSubmit submittingState ApiOutcome.resolved = []) ∧
    (completedState.quizCompleted = true ∧ completedState.result ≠ none ∧
      handleAutoSubmit completedState ApiOutcome.resolved = [] ∧
      view completedState ≠ View.inProgress) :=
  ⟨⟨by decide,
    ((C5_submit_guards submittingState (JSValue.bool true) ApiOutcome.resolved).1 (by decide)).1,
    ((C5_submit_guards submittingState (JSValue.bool true) ApiOutcome.resolved).1 (by decide)).2.1⟩,
   ⟨by decide, by decide,
    ((C5_submit_guards completedState (JSValue.bool true) ApiOutcome.resolved).2.1 (by decide)).1,
    (C5_submit_guards completedState (JSValue.bool true) ApiOutcome.resolved).2.2 (by decide)
      (by decide)⟩⟩

/-- C6 fails as stated: `submitting` is a `useState` cell, which a handler reads as a constant of
its render; `setSubmitting(true)` is in the handler's trace but the snapshot the handler was
created on still has `submitting = false`. So a submit request run a second time on the same
in-progress snapshot passes the guard again: two `submitChallenge` calls, not one. -/
theorem C6_same_snapshot_passes_guard_twice :
    inProgressState.phase = Phase.InProgress ∧
    inProgressState.submitting = false ∧
    (handleSubmitQuiz inProgressState (JSValue.bool true) ApiOutcome.resolved).head? =
      some (Effect.setSubmitting true) ∧
    submitCalls (handleSubmitQuiz inProgressState (JSValue.bool true) ApiOutcome.resolved) = 1 ∧
    submitCalls
        (handleSubmitQuiz inProgressState (JSValue.bool true) ApiOutcome.resolved ++
          handleSubmitQuiz inProgressState (JSValue.bool true) ApiOutcome.resolved) = 2 := by
  decide

/-- C6, amended: in an in-progress state with a loaded challenge a click on Submit Quiz issues
exactly one `submitChallenge` call, and the first thing it does is `setSubmitting(true)`. In the
render that follows, with `submitting = true`, the Submit Quiz button is not offered (it is
disabled) and `handleSubmitQuiz`, forced or not, returns at its guard; the auto-submit queued by
the timer issues no `submitChallenge` call, whichever render created it. So a second click, or
the auto-submit, next to a submit in flight adds no call: one call in all. -/
theorem C6_second_request_adds_no_call (s r : State) (forceSubmit : JSValue)
    (first second : ApiOutcome) (challenge : Challenge)
    (hphase : s.phase = Phase.InProgress) (hch : s.challenge = some challenge) :
    submitCalls (submitButtonOnClick s first) = 1 ∧
    (submitButtonOnClick s first).head? = some (Effect.setSubmitting true) ∧
    (applyEffects s [Effect.setSubmitting true]).submitting = true ∧
    controlAvailable (applyEffects s [Effect.setSubmitting true]) (Action.submitClick second) =
      false ∧
    handleSubmitQuiz (applyEffects s [Effect.setSubmitting true]) forceSubmit second = [] ∧
    submitCalls (handleAutoSubmit r second) = 0 ∧
    submitCalls
        (submitButtonOnClick s first ++
          handleSubmitQuiz (applyEffects s [Effect.setSubmitting true]) forceSubmit second) = 1 ∧
    submitCalls (submitButtonOnClick s first ++ handleAutoSubmit r second) = 1 := by
  have hsub : s.submitting = false := by
    cases hc : s.quizCompleted <;> cases hs : s.submitting <;>
      simp [State.phase, hc, hs] at hphase ⊢
  obtain ⟨⟨rest, hrest⟩, hcount, -⟩ :=
    handleSubmitQuiz_proceeds s JSValue.object first challenge hch hsub (Or.inl rfl)
  have hflight : (applyEffects s [Effect.setSubmitting true]).submitting = true := rfl
  have hnoop := (submit_noop_while_submitting (applyEffects s [Effect.setSubmitting true])
    forceSubmit second hflight).1
  have hauto := (handleAutoSubmit_inert r s second).1
  have hsplit : ∀ es : List Effect,
      submitCalls (submitButtonOnClick s first ++ es) =
        submitCalls (submitButtonOnClick s first) + submitCalls es := by
    intro es
    simp [submitCalls, List.countP_append]
  refine ⟨hcount, ?_, hflight, ?_, hnoop, hauto, ?_, ?_⟩
  · simp only [submitButtonOnClick, hrest, List.head?_cons]
  · simp [controlAvailable, hflight]
  · rw [hsplit, hnoop]
    exact hcount
  · rw [hsplit, hauto]
    exact hcount

/-- Witness for C6 (amended): the three-question session, a second click and the auto-submit of
the render that started the timer. -/
theorem C6_second_request_adds_no_call_witness :
    inProgressState.phase = Phase.InProgress ∧
    submitCalls
        (submitButtonOnClick inProgressState ApiOutcome.resolved ++
          handleSubmitQuiz submittingState JSValue.object ApiOutcome.resolved) = 1 ∧
    submitCalls
        (submitButtonOnClick inProgressState ApiOutcome.resolved ++
          handleAutoSubmit inProgressState ApiOutcome.resolved) = 1 :=
  ⟨by decide,
   (C6_second_request_adds_no_call inProgressState inProgressState JSValue.object
      ApiOutcome.resolved ApiOutcome.resolved ⟨10⟩ (by decide) (by decide)).2.2.2.2.2.2.1,
   (C6_second_request_adds_no_call inProgressState inProgressState JSValue.object
      ApiOutcome.resolved ApiOutcome.resolved ⟨10⟩ (by decide) (by decide)).2.2.2.2.2.2.2⟩

/-- C7: in an in-progress state with a loaded challenge, `handleSubmitQuiz(forceSubmit)` defers
exactly when `forceSubmit` is falsy and the skipped set is non-empty. Deferring only sets
`showSkipModal`: no `submitChallenge` call, and `submitting`, `answers`, `result` and the phase
keep their values. Otherwise the handler goes straight to `setSubmitting(true)` and the
`submitChallenge` call. -/
theorem C7_submit_defers_iff (s : State) (forceSubmit : JSValue) (outcome : ApiOutcome)
    (challenge : Challenge) (hphase : s.phase = Phase.InProgress)
    (hch : s.challenge = some challenge) :
    (handleSubmitQuiz s forceSubmit outcome = [Effect.setShowSkipModal true] ↔
      (forceSubmit.truthy = false ∧ s.skippedQuestions ≠ [])) ∧
    ((forceSubmit.truthy = false ∧ s.skippedQuestions ≠ []) →
      submitCalls (handleSubmitQuiz s forceSubmit outcome) = 0 ∧
      applyEffects s (handleSubmitQuiz s forceSubmit outcome) = { s with showSkipModal := true } ∧
      (applyEffects s (handleSubmitQuiz s forceSubmit outcome)).phase = s.phase) ∧
    (¬ (forceSubmit.truthy = false ∧ s.skippedQuestions ≠ []) →
      (∃ rest, handleSubmitQuiz s forceSubmit outcome =
        Effect.setSubmitting true ::
          Effect.submitChallenge s.answers (challenge.time_limit * 60 - s.timeLeft) :: rest) ∧
      submitCalls (handleSubmitQuiz s forceSubmit outcome) = 1 ∧
      Effect.setShowSkipModal true ∉ handleSubmitQuiz s forceSubmit outcome) := by
  have hsub : s.submitting = false := by
    cases hs : s.submitting
    · rfl
    · simp [State.phase, hs] at hphase
      split at hphase <;> simp at hphase
  have hdefer : (forceSubmit.truthy = false ∧ s.skippedQuestions ≠ []) →
      handleSubmitQuiz s forceSubmit outcome = [Effect.setShowSkipModal true] := by
    rintro ⟨hf, hne⟩
    have hlen : 0 < s.skippedQuestions.length := List.length_pos.mpr hne
    simp [handleSubmitQuiz, hsub, truthy_orFalse, hf, hlen]
  have hgo : ¬ (forceSubmit.truthy = false ∧ s.skippedQuestions ≠ []) →
      forceSubmit.truthy = true ∨ s.skippedQuestions = [] := by
    intro hn
    by_cases hf : forceSubmit.truthy = true
    · exact Or.inl hf
    · right
      by_contra hne
      exact hn ⟨by simpa using hf, hne⟩
  refine ⟨⟨?_, hdefer⟩, ?_, ?_⟩
  · intro heq
    by_contra hn
    obtain ⟨⟨rest, hrest⟩, -, -⟩ :=
      handleSubmitQuiz_proceeds s forceSubmit outcome challenge hch hsub (hgo hn)
    rw [hrest] at heq
    simp at heq
  · intro hcond
    rw [hdefer hcond]
    refine ⟨by simp [submitCalls, Effect.isSubmitCall], by simp [applyEffects, applyEffect], ?_⟩
    simp [applyEffects, applyEffect, State.phase]
  · intro hn
    exact handleSubmitQuiz_proceeds s forceSubmit outcome challenge hch hsub (hgo hn)

/-- Witness for C7 on the session with question 12 skipped: a plain submit defers. -/
theorem C7_submit_defers_iff_witness :
    skippedState.phase = Phase.InProgress ∧
    skippedState.challenge = some ⟨10⟩ ∧
    handleSubmitQuiz skippedState (JSValue.bool false) ApiOutcome.resolved =
      [Effect.setShowSkipModal true] :=
  ⟨by decide, by decide,
    (C7_submit_defers_iff skippedState (JSValue.bool false) ApiOutcome.resolved ⟨10⟩
      (by decide) (by decide)).1.mpr ⟨by decide, by decide⟩⟩

/-- C8: with question 2 of 3 skipped and the last question shown, a click on the Submit Quiz
button runs `handleSubmitQuiz` with the click event as `forceSubmit`; the event is truthy, so the
skip check is bypassed: the modal is not shown and the submission is sent. The non-forced call
on the same state would have shown the modal. -/
theorem C8_submit_click_bypasses_skip_modal :
    skippedState.phase = Phase.InProgress ∧
    skippedState.skippedQuestions = [12] ∧
    skippedState.currentQuestion = skippedState.questions.length - 1 ∧
    submitCalls (submitButtonOnClick skippedState ApiOutcome.resolved) = 1 ∧
    Effect.setShowSkipModal true ∉ submitButtonOnClick skippedState ApiOutcome.resolved ∧
    (applyEffects skippedState (submitButtonOnClick skippedState ApiOutcome.resolved)).showSkipModal
      = false ∧
    (applyEffects skippedState (submitButtonOnClick skippedState ApiOutcome.resolved)).quizCompleted
      = true ∧
    handleSubmitQuiz skippedState (JSValue.bool false) ApiOutcome.resolved =
      [Effect.setShowSkipModal true] := by
  decide


/-! ## Skip-confirmation modal -/

/-- When no element satisfies `p`, `findIndex` answers `-1`. -/
theorem findIndexFrom_none {α : Type} (p : α → Bool) (xs : List α) (i : Nat)
    (h : ∀ x ∈ xs, p x = false) : findIndexFrom p xs i = -1 := by
  induction xs generalizing i with
  | nil => rfl
  | cons a xs ih =>
    have ha : p a = false := h a (List.mem_cons_self a xs)
    simp only [findIndexFrom, ha]
    exact ih (i + 1) (fun x hx => h x (List.mem_cons_of_mem a hx))

/-- When some element satisfies `p`, `findIndex` answers the first position that does. -/
theorem findIndexFrom_first {α : Type} (p : α → Bool) (xs : List α) (i : Nat)
    (h : ∃ x ∈ xs, p x = true) :
    ∃ j x, xs[j]? = some x ∧ p x = true ∧
      (∀ k y, k < j → xs[k]? = some y → p y = false) ∧
      findIndexFrom p xs i = ((i + j : Nat) : Int) := by
  induction xs generalizing i with
  | nil =>
    obtain ⟨x, hx, -⟩ := h
    cases hx
  | cons a xs ih =>
    by_cases ha : p a = true
    · refine ⟨0, a, by simp, ha, ?_, ?_⟩
      · intro k y hk
        omega
      · simp [findIndexFrom, ha]
    · have ha' : p a = false := by simpa using ha
      have hrest : ∃ x ∈ xs, p x = true := by
        obtain ⟨x, hx, hpx⟩ := h
        rcases List.mem_cons.mp hx with rfl | hx'
        · exact absurd hpx ha
        · exact ⟨x, hx', hpx⟩
      obtain ⟨j, x, hj, hpx, hmin, hval⟩ := ih (i + 1) hrest
      refine ⟨j + 1, x, by simpa using hj, hpx, ?_, ?_⟩
      · intro k y hk hy
        cases k with
        | zero =>
          simp at hy
          rw [← hy]
          exact ha'
        | succ k =>
          simp at hy
          exact hmin k y (by omega) hy
      · simp only [findIndexFrom, ha']
        rw [hval]
        simp
        omega

/-- With pairwise distinct ids, two positions holding the same id are the same position. -/
theorem index_unique_of_nodup_ids (qs : List Question) (h : (qs.map (fun q => q.id)).Nodup)
    (i j : Nat) (a b : Question) (hi : qs[i]? = some a) (hj : qs[j]? = some b)
    (hid : a.id = b.id) : i = j := by
  have key : ∀ i j : Nat, ∀ a b : Question, qs[i]? = some a → qs[j]? = some b → a.id = b.id →
      ¬ i < j := by
    intro i j a b hi hj hid hlt
    have hjlen : j < (qs.map (fun q => q.id)).length := by
      rw [List.length_map]
      by_contra hge
      have : qs[j]? = none := List.getElem?_eq_none (by omega)
      rw [this] at hj
      cases hj
    have hne := List.nodup_iff_getElem?_ne_getElem?.mp h i j hlt hjlen
    apply hne
    simp [List.getElem?_map, hi, hj, hid]
  rcases lt_trichotomy i j with hlt | heq | hgt
  · exact absurd hlt (key i j a b hi hj hid)
  · exact heq
  · exact absurd hgt (key j i b a hj hi hid.symm)


/-- Lookup of an id that occurs in the list: `findIndex` returns a position holding it. -/
theorem findIndex_id (qs : List Question) (id : Nat) (h : ∃ q ∈ qs, q.id = id) :
    ∃ (j : Nat) (q : Question), qs[j]? = some q ∧ q.id = id ∧
      findIndex (fun q : Question => decide (q.id = id)) qs = (j : Int) := by
  obtain ⟨q0, hq0, hid0⟩ := h
  obtain ⟨j, q, hj, hp, -, hval⟩ :=
    findIndexFrom_first (fun q : Question => decide (q.id = id)) qs 0 ⟨q0, hq0, by simpa using hid0⟩
  refine ⟨j, q, hj, by simpa using hp, ?_⟩
  rw [findIndex, hval]
  simp

/-- C9: in the skip-confirmation modal, for distinct question ids and a non-empty skipped set of
ids of the question list: the listed numbers are strictly ascending and are exactly the
1-based positions of the questions whose id is skipped; Go Back closes the modal, sets
`currentQuestion` to the smallest index of a skipped question and makes no `submitChallenge`
call; Confirm Submit closes the modal and runs `handleSubmitQuiz(true)`, which on a loaded
challenge that is not already submitting sends the submission. -/
theorem C9_skip_modal (s : State) (outcome : ApiOutcome)
    (hids : (s.questions.map (fun q => q.id)).Nodup)
    (hset : s.skippedQuestions.Nodup)
    (hne : s.skippedQuestions ≠ [])
    (hmem : ∀ id ∈ s.skippedQuestions, ∃ q ∈ s.questions, q.id = id) :
    (skipModalNumbers s).Sorted (· < ·) ∧
    (∀ k : Int, k ∈ skipModalNumbers s ↔
      ∃ (i : Nat) (q : Question), s.questions[i]? = some q ∧ q.id ∈ s.skippedQuestions ∧ k = (i : Int) + 1) ∧
    (∃ (i : Nat) (q : Question), s.questions[i]? = some q ∧ q.id ∈ s.skippedQuestions ∧
      (∀ j q', j < i → s.questions[j]? = some q' → q'.id ∉ s.skippedQuestions) ∧
      skipModalGoBack s = [Effect.setShowSkipModal false, Effect.setCurrentQuestion i] ∧
      applyEffects s (skipModalGoBack s) = { s with showSkipModal := false, currentQuestion := i }) ∧
    submitCalls (skipModalGoBack s) = 0 ∧
    skipModalConfirmSubmit s outcome =
      Effect.setShowSkipModal false :: handleSubmitQuiz s (JSValue.bool true) outcome ∧
    (∀ challenge, s.challenge = some challenge → s.submitting = false →
      submitCalls (skipModalConfirmSubmit s outcome) = 1) := by
  have hmemNum : ∀ k : Int, k ∈ skipModalNumbers s ↔
      ∃ (i : Nat) (q : Question), s.questions[i]? = some q ∧ q.id ∈ s.skippedQuestions ∧ k = (i : Int) + 1 := by
    intro k
    rw [skipModalNumbers, List.mem_insertionSort, List.mem_map]
    constructor
    · rintro ⟨id, hid, rfl⟩
      obtain ⟨j, q, hj, hq, hval⟩ := findIndex_id s.questions id (hmem id hid)
      exact ⟨j, q, hj, by rw [hq]; exact hid, by rw [hval]⟩
    · rintro ⟨i, q, hi, hq, rfl⟩
      refine ⟨q.id, hq, ?_⟩
      obtain ⟨j, q', hj, hq', hval⟩ := findIndex_id s.questions q.id (hmem q.id hq)
      have hji : j = i := index_unique_of_nodup_ids s.questions hids j i q' q hj hi hq'
      rw [hval, hji]
  have hnodup : (skipModalNumbers s).Nodup := by
    rw [skipModalNumbers, (List.perm_insertionSort _ _).nodup_iff]
    refine List.Nodup.map_on ?_ hset
    intro x hx y hy hxy
    obtain ⟨jx, qx, hjx, hqx, hvx⟩ := findIndex_id s.questions x (hmem x hx)
    obtain ⟨jy, qy, hjy, hqy, hvy⟩ := findIndex_id s.questions y (hmem y hy)
    rw [hvx, hvy] at hxy
    have hj : jx = jy := by omega
    subst hj
    rw [hjx] at hjy
    cases hjy
    rw [← hqx, ← hqy]
  have hsorted : (skipModalNumbers s).Sorted (· < ·) :=
    List.Sorted.lt_of_le (List.sorted_insertionSort _ _) hnodup
  have hback : ∃ (i : Nat) (q : Question), s.questions[i]? = some q ∧ q.id ∈ s.skippedQuestions ∧
      (∀ j q', j < i → s.questions[j]? = some q' → q'.id ∉ s.skippedQuestions) ∧
      skipModalGoBack s = [Effect.setShowSkipModal false, Effect.setCurrentQuestion i] := by
    obtain ⟨id, hid⟩ := List.exists_mem_of_ne_nil _ hne
    obtain ⟨q0, hq0, hq0id⟩ := hmem id hid
    obtain ⟨i, q, hi, hp, hmin, hval⟩ :=
      findIndexFrom_first (fun q : Question => decide (q.id ∈ s.skippedQuestions)) s.questions 0
        ⟨q0, hq0, by simpa [hq0id] using hid⟩
    refine ⟨i, q, hi, by simpa using hp, ?_, ?_⟩
    · intro j q' hj hq'
      simpa using hmin j q' hj hq'
    · have hfi : findIndex (fun q : Question => decide (q.id ∈ s.skippedQuestions)) s.questions
          = (i : Int) := by
        rw [findIndex, hval]; simp
      have hne1 : ((i : Int) ≠ -1) := by omega
      simp [skipModalGoBack, hfi, hne1]
  obtain ⟨i, q, hi, hq, hmin, hgb⟩ := hback
  refine ⟨hsorted, hmemNum, ⟨i, q, hi, hq, hmin, hgb, ?_⟩, ?_, rfl, ?_⟩
  · rw [hgb]
    simp [applyEffects, applyEffect]
  · rw [hgb]
    simp [submitCalls, Effect.isSubmitCall]
  · intro challenge hch hsub
    have h := (handleSubmitQuiz_proceeds s (JSValue.bool true) outcome challenge hch hsub
      (Or.inl rfl)).2.1
    simp only [skipModalConfirmSubmit, submitCalls, List.countP_cons, Effect.isSubmitCall] at h ⊢
    simpa using h

/-- Witness for C9: with question 2 of 3 skipped the modal lists "2" and Go Back moves to
index 1 without submitting. -/
theorem C9_skip_modal_witness :
    (skipModalNumbers skippedState = [2] ∧
     skipModalText skippedState = "2" ∧
     skipModalGoBack skippedState =
       [Effect.setShowSkipModal false, Effect.setCurrentQuestion 1]) ∧
    (skipModalNumbers skippedState).Sorted (· < ·) ∧
    submitCalls (skipModalGoBack skippedState) = 0 :=
  ⟨by decide,
   (C9_skip_modal skippedState ApiOutcome.resolved (by decide) (by decide) (by decide)
      (by decide)).1,
   (C9_skip_modal skippedState ApiOutcome.resolved (by decide) (by decide) (by decide)
      (by decide)).2.2.2.1⟩

/-! ## Time expiry -/

/-- C10: the session on three questions with question 12 skipped, one second before the end.
The tick with `prevTime = 1` writes `timeLeft = 0` and queues one auto-submit, as claimed. The
queued `handleAutoSubmit` passes its guard and throws at `toast.info` (line 71), before the
`handleSubmitQuiz(true)` of line 72: no `submitChallenge` call is issued, nothing is written,
and the session stays in progress with no result, at `timeLeft = 0`. -/
theorem C10_auto_submit_throws_before_submit :
    lastSecondState.phase = Phase.InProgress ∧
    lastSecondState.skippedQuestions = [12] ∧
    intervalInstalled skippedState lastSecondState = true ∧
    timerTick skippedState.timeWarnings 1 = (some 0, [Effect.scheduleAutoSubmit]) ∧
    actionsTrace lastSecondState
        [Action.tick skippedState, Action.autoSubmit skippedState ApiOutcome.resolved] =
      [Effect.scheduleAutoSubmit, Effect.setTimeLeft 0,
       Effect.throwTypeError "toast.info is not a function"] ∧
    submitCalls (handleAutoSubmit skippedState ApiOutcome.resolved) = 0 ∧
    runActions lastSecondState
        [Action.tick skippedState, Action.autoSubmit skippedState ApiOutcome.resolved] =
      { lastSecondState with timeLeft := 0 } ∧
    (runActions lastSecondState
        [Action.tick skippedState, Action.autoSubmit skippedState ApiOutcome.resolved]).phase =
      Phase.InProgress ∧
    (runActions lastSecondState
        [Action.tick skippedState, Action.autoSubmit skippedState ApiOutcome.resolved]).result =
      none := by
  decide

end QuizBattle

namespace QuizBattle

/-! ## Answer selection -/

/-- Reading a key after the object-spread update. -/
theorem Answers.get_set (a : Answers) (q i q' : Nat) :
    (a.set q i).get q' = if q' = q then some i else a.get q' := by
  induction a with
  | nil =>
    by_cases h : q' = q
    · simp [Answers.set, Answers.get, h]
    · have h' : ¬ q = q' := fun e => h e.symm
      simp [Answers.set, Answers.get, h, h']
  | cons kv rest ih =>
    obtain ⟨k, v⟩ := kv
    by_cases hk : k = q
    · subst hk
      by_cases h : q' = k
      · simp [Answers.set, Answers.get, h]
      · have h' : ¬ k = q' := fun e => h e.symm
        simp [Answers.set, Answers.get, h, h']
    · by_cases hkq : k = q'
      · subst hkq
        simp [Answers.set, Answers.get, hk]
      · simp [Answers.set, Answers.get, hk, hkq, ih]

/-- Writing the same entry twice is writing it once. -/
theorem Answers.set_set (a : Answers) (q i : Nat) : (a.set q i).set q i = a.set q i := by
  induction a with
  | nil => simp [Answers.set]
  | cons kv rest ih =>
    obtain ⟨k, v⟩ := kv
    by_cases hk : k = q
    · simp [Answers.set, hk]
    · simp [Answers.set, hk, ih]

/-- One answer-select action changes the `answers` cell only. -/
theorem step_selectAnswer (s : State) (q i : Nat) :
    step s (Action.selectAnswer q i) = { s with answers := s.answers.set q i } := by
  simp [step, actionEffects, handleAnswerSelect, applyEffects, applyEffect]

/-- C11: after any sequence of answer-select actions, `answers[q]` is the index of the last
select action on `q` in the sequence, and the previous value when `q` was not selected at all;
selecting the same index twice leaves the same state as selecting it once. -/
theorem C11_last_selection_wins (s : State) (selections : List (Nat × Nat)) (q : Nat) :
    (runActions s (selections.map (fun a => Action.selectAnswer a.1 a.2))).answers.get q =
      (match (selections.filter (fun a => decide (a.1 = q))).getLast? with
       | some a => some a.2
       | none => s.answers.get q) ∧
    ((∀ a ∈ selections, a.1 ≠ q) →
      (runActions s (selections.map (fun a => Action.selectAnswer a.1 a.2))).answers.get q =
        s.answers.get q) ∧
    (∀ i : Nat, runActions s [Action.selectAnswer q i, Action.selectAnswer q i] =
      runActions s [Action.selectAnswer q i]) := by
  have hmain : (runActions s (selections.map (fun a => Action.selectAnswer a.1 a.2))).answers.get q =
      (match (selections.filter (fun a => decide (a.1 = q))).getLast? with
       | some a => some a.2
       | none => s.answers.get q) := by
    induction selections using List.reverseRecOn with
    | nil => simp [runActions]
    | append_singleton l a ih =>
      simp only [runActions, List.map_append, List.map_cons, List.map_nil, List.foldl_append,
        List.foldl_cons, List.foldl_nil, List.filter_append] at ih ⊢
      rw [step_selectAnswer]
      simp only [Answers.get_set]
      by_cases h : a.1 = q
      · have hf : List.filter (fun a => decide (a.1 = q)) [a] = [a] := by simp [h]
        rw [hf, List.getLast?_append]
        simp [h]
      · have hf : List.filter (fun a => decide (a.1 = q)) [a] = [] := by simp [h]
        have h' : ¬ q = a.1 := fun e => h e.symm
        rw [hf, List.append_nil, if_neg h']
        exact ih
  refine ⟨hmain, ?_, ?_⟩
  · intro hno
    rw [hmain]
    have hf : selections.filter (fun a => decide (a.1 = q)) = [] := by
      rw [List.filter_eq_nil_iff]
      intro a ha
      simpa using hno a ha
    rw [hf]
    rfl
  · intro i
    simp only [runActions, List.foldl_cons, List.foldl_nil, step_selectAnswer]
    simp [Answers.set_set]

/-- Witness for C11: option 1 then option 3 on question 12, with question 13 untouched. -/
theorem C11_last_selection_wins_witness :
    (runActions inProgressState
        ([(12, 1), (12, 3)].map (fun a => Action.selectAnswer a.1 a.2))).answers.get 12 = some 3 ∧
    (runActions inProgressState
        ([(12, 1), (12, 3)].map (fun a => Action.selectAnswer a.1 a.2))).answers.get 13 =
      inProgressState.answers.get 13 :=
  ⟨(C11_last_selection_wins inProgressState [(12, 1), (12, 3)] 12).1,
   (C11_last_selection_wins inProgressState [(12, 1), (12, 3)] 13).2.1 (by decide)⟩

end QuizBattle

namespace QuizBattle

/-! ## Frame properties of the handlers -/

/-- What `handleSubmitQuiz` never writes: the challenge, the questions, the index, the answers,
the skipped set, the clock and the warning flags. -/
theorem handleSubmitQuiz_frame (s : State) (forceSubmit : JSValue) (outcome : ApiOutcome) :
    (applyEffects s (handleSubmitQuiz s forceSubmit outcome)).challenge = s.challenge ∧
    (applyEffects s (handleSubmitQuiz s forceSubmit outcome)).questions = s.questions ∧
    (applyEffects s (handleSubmitQuiz s forceSubmit outcome)).currentQuestion = s.currentQuestion ∧
    (applyEffects s (handleSubmitQuiz s forceSubmit outcome)).answers = s.answers ∧
    (applyEffects s (handleSubmitQuiz s forceSubmit outcome)).skippedQuestions = s.skippedQuestions ∧
    (applyEffects s (handleSubmitQuiz s forceSubmit outcome)).timeLeft = s.timeLeft ∧
    (applyEffects s (handleSubmitQuiz s forceSubmit outcome)).timeWarnings = s.timeWarnings := by
  unfold handleSubmitQuiz
  split_ifs
  · simp [applyEffects]
  · simp [applyEffects, applyEffect]
  · cases h : s.challenge <;> cases outcome <;> simp [applyEffects, applyEffect, h]

/-- A click on an indicator sets the index when the button exists, and there is a button for
every position of the question list. -/
theorem jumpToQuestion_eq (s : State) (index : Nat) :
    jumpToQuestion s index =
      if index < s.questions.length then [Effect.setCurrentQuestion index] else [] := by
  unfold jumpToQuestion questionIndicators
  by_cases h : index < s.questions.length
  · rw [if_pos h, List.getElem?_map, List.getElem?_range h]
    rfl
  · rw [if_neg h, List.getElem?_eq_none (by simpa using h)]
    rfl

/-- The same frame for actions: challenge and questions are never written, the clock is written
by a tick only, the warning flags by the start action only. -/
theorem step_frame (s : State) (a : Action) :
    (step s a).challenge = s.challenge ∧
    (step s a).questions = s.questions ∧
    ((∀ r, a ≠ Action.tick r) → (step s a).timeLeft = s.timeLeft) ∧
    (a ≠ Action.start → (step s a).timeWarnings = s.timeWarnings) := by
  cases a with
  | start => simp [step, actionEffects, handleStartQuiz, applyEffects, applyEffect]
  | selectAnswer q i => simp [step, actionEffects, handleAnswerSelect, applyEffects, applyEffect]
  | next =>
    simp only [step, actionEffects, handleNextQuestion]
    split_ifs <;> simp [applyEffects, applyEffect]
  | previous =>
    simp only [step, actionEffects, handlePreviousQuestion]
    split_ifs <;> simp [applyEffects, applyEffect]
  | skip =>
    simp only [step, actionEffects, handleSkipQuestion]
    cases s.questions[s.currentQuestion]? with
    | none => simp [applyEffects]
    | some q => split_ifs <;> simp [applyEffects, applyEffect]
  | jump index =>
    simp only [step, actionEffects, jumpToQuestion_eq]
    split_ifs <;> simp [applyEffects, applyEffect]
  | submitClick outcome =>
    have h := handleSubmitQuiz_frame s JSValue.object outcome
    simp only [step, actionEffects, submitButtonOnClick]
    exact ⟨h.1, h.2.1, fun _ => h.2.2.2.2.2.1, fun _ => h.2.2.2.2.2.2⟩
  | autoSubmit r outcome =>
    have h : step s (Action.autoSubmit r outcome) = s := (handleAutoSubmit_inert r s outcome).2
    rw [h]
    exact ⟨rfl, rfl, fun _ => rfl, fun _ => rfl⟩
  | goBack =>
    simp only [step, actionEffects, skipModalGoBack]
    split_ifs <;> simp [applyEffects, applyEffect]
  | confirmSubmit outcome =>
    have h := handleSubmitQuiz_frame { s with showSkipModal := false } (JSValue.bool true) outcome
    have hsame : handleSubmitQuiz { s with showSkipModal := false } (JSValue.bool true) outcome =
        handleSubmitQuiz s (JSValue.bool true) outcome := rfl
    rw [hsame] at h
    simp only [step, actionEffects, skipModalConfirmSubmit, applyEffects, List.foldl_cons,
      applyEffect] at h ⊢
    exact ⟨h.1, h.2.1, fun _ => h.2.2.2.2.2.1, fun _ => h.2.2.2.2.2.2⟩
  | tick r =>
    simp only [step, actionEffects]
    rcases timerEffectTick_cases r s with h | h | ⟨-, h⟩ | ⟨-, h⟩ <;> rw [h] <;>
      exact ⟨rfl, rfl, fun hne => absurd rfl (hne r), fun _ => rfl⟩

/-! ## Failed submission, loading, start -/

/-- C13: when the `submitChallenge` call is rejected, the handler only shows the failure
notification and sets `submitting` back to `false`: the state after it is the state before it
(answers, skipped set, index, clock, `result = null`, `quizCompleted = false`,
`quizStarted = true`, phase in progress). A second submit on that state sends the same
payload, and when it resolves the session is completed with the result of the same answers. -/
theorem C13_failed_submit_is_retryable (s : State) (forceSubmit : JSValue) (challenge : Challenge)
    (hphase : s.phase = Phase.InProgress) (hch : s.challenge = some challenge)
    (hgo : forceSubmit.truthy = true ∨ s.skippedQuestions = []) :
    handleSubmitQuiz s forceSubmit ApiOutcome.rejected =
      [ Effect.setSubmitting true,
        Effect.submitChallenge s.answers (challenge.time_limit * 60 - s.timeLeft),
        Effect.toast ToastKind.error "Failed to submit quiz",
        Effect.setSubmitting false ] ∧
    applyEffects s (handleSubmitQuiz s forceSubmit ApiOutcome.rejected) = s ∧
    (applyEffects s (handleSubmitQuiz s forceSubmit ApiOutcome.rejected)).phase = Phase.InProgress ∧
    (handleSubmitQuiz (applyEffects s (handleSubmitQuiz s forceSubmit ApiOutcome.rejected))
        forceSubmit ApiOutcome.resolved).take 2 =
      [ Effect.setSubmitting true,
        Effect.submitChallenge s.answers (challenge.time_limit * 60 - s.timeLeft) ] ∧
    (applyEffects (applyEffects s (handleSubmitQuiz s forceSubmit ApiOutcome.rejected))
        (handleSubmitQuiz (applyEffects s (handleSubmitQuiz s forceSubmit ApiOutcome.rejected))
          forceSubmit ApiOutcome.resolved)).quizCompleted = true ∧
    (applyEffects (applyEffects s (handleSubmitQuiz s forceSubmit ApiOutcome.rejected))
        (handleSubmitQuiz (applyEffects s (handleSubmitQuiz s forceSubmit ApiOutcome.rejected))
          forceSubmit ApiOutcome.resolved)).result =
      some (computeResult s.questions s.answers (challenge.time_limit * 60 - s.timeLeft)) := by
  have hsub : s.submitting = false := by
    cases hs : s.submitting
    · rfl
    · simp [State.phase, hs] at hphase
      split at hphase <;> simp at hphase
  have hguard : (!forceSubmit.orFalse.truthy && decide (s.skippedQuestions.length > 0)) = false := by
    rw [truthy_orFalse]
    rcases hgo with h | h
    · simp [h]
    · simp [h]
  have hrej : handleSubmitQuiz s forceSubmit ApiOutcome.rejected =
      [ Effect.setSubmitting true,
        Effect.submitChallenge s.answers (challenge.time_limit * 60 - s.timeLeft),
        Effect.toast ToastKind.error "Failed to submit quiz",
        Effect.setSubmitting false ] := by
    simp [handleSubmitQuiz, hsub, hguard, hch]
  have hsame : applyEffects s (handleSubmitQuiz s forceSubmit ApiOutcome.rejected) = s := by
    rw [hrej]
    simp only [applyEffects, List.foldl_cons, List.foldl_nil, applyEffect]
    cases s
    simp_all
  have hres : handleSubmitQuiz s forceSubmit ApiOutcome.resolved =
      [ Effect.setSubmitting true,
        Effect.submitChallenge s.answers (challenge.time_limit * 60 - s.timeLeft),
        Effect.setResult
          (some (computeResult s.questions s.answers (challenge.time_limit * 60 - s.timeLeft))),
        Effect.setQuizCompleted true,
        Effect.setQuizStarted false,
        Effect.toast ToastKind.success "Quiz submitted successfully!",
        Effect.scheduleLeaderboardRefresh,
        Effect.setSubmitting false ] := by
    simp [handleSubmitQuiz, hsub, hguard, hch]
  refine ⟨hrej, hsame, ?_, ?_, ?_, ?_⟩
  · rw [hsame]; exact hphase
  · rw [hsame, hres]; rfl
  · rw [hsame, hres]; rfl
  · rw [hsame, hres]; rfl

/-- Witness for C13 on the three-question session. -/
theorem C13_failed_submit_is_retryable_witness :
    inProgressState.phase = Phase.InProgress ∧
    applyEffects inProgressState
        (handleSubmitQuiz inProgressState (JSValue.bool true) ApiOutcome.rejected) =
      inProgressState :=
  ⟨by decide,
   (C13_failed_submit_is_retryable inProgressState (JSValue.bool true) ⟨10⟩ (by decide) (by decide)
      (Or.inl rfl)).2.1⟩

/-- C14: when the fetch resolves with a challenge and an empty question list,
`loadChallengeData` returns before `setChallenge`: it shows an error notification and navigates
to `/challenges`, the challenge stays `null`, and the screen rendered is "Challenge Not Found",
not "No Questions Available". After no outcome of the fetch is the "No Questions Available"
screen rendered. The session stays NotStarted, without a start button. -/
theorem C14_empty_question_list_shows_not_found :
    loadChallengeData (FetchOutcome.resolved (some ⟨10⟩) (some [])) =
      [ Effect.setLoading true,
        Effect.toast ToastKind.error "No questions available for this challenge",
        Effect.navigate "/challenges",
        Effect.setLoading false ] ∧
    (applyEffects initialState
        (loadChallengeData (FetchOutcome.resolved (some ⟨10⟩) (some [])))).challenge = none ∧
    view (applyEffects initialState
        (loadChallengeData (FetchOutcome.resolved (some ⟨10⟩) (some [])))) = View.notFound ∧
    (applyEffects initialState
        (loadChallengeData (FetchOutcome.resolved (some ⟨10⟩) (some [])))).phase =
      Phase.NotStarted ∧
    (∀ outcome : FetchOutcome,
      view (applyEffects initialState (loadChallengeData outcome)) ≠ View.noQuestions) := by
  refine ⟨by decide, by decide, by decide, by decide, ?_⟩
  intro outcome
  cases outcome with
  | rejected e => simp [loadChallengeData, applyEffects, applyEffect, initialState, view]
  | resolved c qs =>
    cases c with
    | none => simp [loadChallengeData, applyEffects, applyEffect, initialState, view]
    | some c =>
      cases qs with
      | none => simp [loadChallengeData, applyEffects, applyEffect, initialState, view]
      | some qs =>
        by_cases h : qs.length = 0
        · simp [loadChallengeData, applyEffects, applyEffect, initialState, view, h]
        · simp [loadChallengeData, applyEffects, applyEffect, initialState, view, h]

/-- C15: a successful load with a non-empty question list leaves a NotStarted state on the start
screen with `timeLeft = time_limit * 60`; `handleStartQuiz` takes any NotStarted state to
InProgress with empty answers, empty skipped set, index 0, cleared warning flags and
`result = null`, and does not write the clock, so that after the start of a loaded session
`timeLeft = time_limit * 60`. -/
theorem C15_start_initialises (s : State) (challenge : Challenge) (questions : List Question)
    (hphase : s.phase = Phase.NotStarted) (hne : questions ≠ []) :
    ((applyEffects s handleStartQuiz).phase = Phase.InProgress ∧
     (applyEffects s handleStartQuiz).answers = [] ∧
     (applyEffects s handleStartQuiz).skippedQuestions = [] ∧
     (applyEffects s handleStartQuiz).currentQuestion = 0 ∧
     (applyEffects s handleStartQuiz).timeWarnings = ⟨false, false, false⟩ ∧
     (applyEffects s handleStartQuiz).result = none ∧
     (applyEffects s handleStartQuiz).timeLeft = s.timeLeft) ∧
    (applyEffects initialState
        (loadChallengeData (FetchOutcome.resolved (some challenge) (some questions))) =
      loadedState challenge questions ∧
     (loadedState challenge questions).phase = Phase.NotStarted ∧
     view (loadedState challenge questions) = View.start ∧
     (applyEffects (loadedState challenge questions) handleStartQuiz).phase = Phase.InProgress ∧
     (applyEffects (loadedState challenge questions) handleStartQuiz).timeLeft =
       challenge.time_limit * 60) := by
  have hflags : s.quizCompleted = false ∧ s.submitting = false := by
    cases hc : s.quizCompleted <;> cases hs : s.submitting <;>
      simp [State.phase, hc, hs] at hphase ⊢
  have hlen : questions.length ≠ 0 := fun h => hne (List.length_eq_zero.mp h)
  refine ⟨⟨?_, rfl, rfl, rfl, rfl, rfl, rfl⟩, ?_, rfl, ?_, rfl, rfl⟩
  · simp [handleStartQuiz, applyEffects, applyEffect, State.phase, hflags.2]
  · simp [loadChallengeData, applyEffects, applyEffect, initialState, loadedState, hlen]
  · simp [view, loadedState, hlen]

/-- Witness for C15: the three-question challenge with a 10 minute limit. -/
theorem C15_start_initialises_witness :
    (loadedState ⟨10⟩ threeQuestions).phase = Phase.NotStarted ∧
    (applyEffects (loadedState ⟨10⟩ threeQuestions) handleStartQuiz).phase = Phase.InProgress ∧
    (applyEffects (loadedState ⟨10⟩ threeQuestions) handleStartQuiz).timeLeft = 600 :=
  ⟨by decide,
   (C15_start_initialises (loadedState ⟨10⟩ threeQuestions) ⟨10⟩ threeQuestions (by decide)
      (by decide)).2.2.2.2.1,
   (C15_start_initialises (loadedState ⟨10⟩ threeQuestions) ⟨10⟩ threeQuestions (by decide)
      (by decide)).2.2.2.2.2⟩

/-! ## Navigation between questions -/

/-- C16: with `n ≥ 1` questions and index `i < n`, next writes `i + 1` when `i < n - 1` and
nothing when `i = n - 1`; previous writes `i - 1` when `i > 0` and nothing when `i = 0`.
Only `currentQuestion` is written (so answers and the skipped set keep their values) and the
new index is again below `n`. -/
theorem C16_next_previous_clamped (s : State) (hn : 1 ≤ s.questions.length)
    (hi : s.currentQuestion < s.questions.length) :
    applyEffects s (handleNextQuestion s) =
      { s with currentQuestion :=
          if s.currentQuestion < s.questions.length - 1 then s.currentQuestion + 1
          else s.currentQuestion } ∧
    applyEffects s (handlePreviousQuestion s) =
      { s with currentQuestion :=
          if 0 < s.currentQuestion then s.currentQuestion - 1 else s.currentQuestion } ∧
    (s.currentQuestion = s.questions.length - 1 → handleNextQuestion s = []) ∧
    (s.currentQuestion = 0 → handlePreviousQuestion s = []) ∧
    (applyEffects s (handleNextQuestion s)).currentQuestion < s.questions.length ∧
    (applyEffects s (handlePreviousQuestion s)).currentQuestion < s.questions.length ∧
    (applyEffects s (handleNextQuestion s)).answers = s.answers ∧
    (applyEffects s (handleNextQuestion s)).skippedQuestions = s.skippedQuestions ∧
    (applyEffects s (handlePreviousQuestion s)).answers = s.answers ∧
    (applyEffects s (handlePreviousQuestion s)).skippedQuestions = s.skippedQuestions := by
  have hnext : applyEffects s (handleNextQuestion s) =
      { s with currentQuestion :=
          if s.currentQuestion < s.questions.length - 1 then s.currentQuestion + 1
          else s.currentQuestion } := by
    unfold handleNextQuestion
    by_cases h : s.currentQuestion < s.questions.length - 1
    · have h' : (s.currentQuestion : Int) < (s.questions.length : Int) - 1 := by omega
      simp [h, h', applyEffects, applyEffect]
    · have h' : ¬ (s.currentQuestion : Int) < (s.questions.length : Int) - 1 := by omega
      simp [h, h', applyEffects]
  have hprev : applyEffects s (handlePreviousQuestion s) =
      { s with currentQuestion :=
          if 0 < s.currentQuestion then s.currentQuestion - 1 else s.currentQuestion } := by
    unfold handlePreviousQuestion
    by_cases h : 0 < s.currentQuestion
    · simp [h, applyEffects, applyEffect]
    · simp [h, applyEffects]
  refine ⟨hnext, hprev, ?_, ?_, ?_, ?_, ?_, ?_, ?_, ?_⟩
  · intro h
    have h' : ¬ (s.currentQuestion : Int) < (s.questions.length : Int) - 1 := by omega
    simp [handleNextQuestion, h']
  · intro h
    simp [handlePreviousQuestion, h]
  · rw [hnext]
    show (if s.currentQuestion < s.questions.length - 1 then s.currentQuestion + 1
      else s.currentQuestion) < s.questions.length
    split_ifs <;> omega
  · rw [hprev]
    show (if 0 < s.currentQuestion then s.currentQuestion - 1 else s.currentQuestion)
      < s.questions.length
    split_ifs <;> omega
  · rw [hnext]
  · rw [hnext]
  · rw [hprev]
  · rw [hprev]

/-- Witness for C16: on the last of three questions next stays and previous goes back. -/
theorem C16_next_previous_clamped_witness :
    inProgressState.currentQuestion = 2 ∧
    handleNextQuestion inProgressState = [] ∧
    (applyEffects inProgressState (handlePreviousQuestion inProgressState)).currentQuestion = 1 :=
  ⟨by decide,
   (C16_next_previous_clamped inProgressState (by decide) (by decide)).2.2.1 (by decide),
   by
    rw [(C16_next_previous_clamped inProgressState (by decide) (by decide)).2.1]
    decide⟩

/-- When `findIndex` finds something, what it returns is a position of the list. -/
theorem findIndex_lt_length {α : Type} (p : α → Bool) (xs : List α)
    (h : findIndex p xs ≠ -1) : (findIndex p xs).toNat < xs.length := by
  by_cases hex : ∃ x ∈ xs, p x = true
  · obtain ⟨j, x, hj, -, -, hval⟩ := findIndexFrom_first p xs 0 hex
    have hjlt : j < xs.length := by
      by_contra hge
      rw [List.getElem?_eq_none (by omega)] at hj
      cases hj
    rw [findIndex, hval]
    simpa using hjlt
  · exfalso
    apply h
    apply findIndexFrom_none
    intro x hx
    by_contra hpx
    exact hex ⟨x, hx, by simpa using hpx⟩

/-- Next keeps the index inside the question list. -/
theorem next_index_valid (s : State) (h : s.currentQuestion < s.questions.length) :
    (applyEffects s (handleNextQuestion s)).currentQuestion < s.questions.length := by
  unfold handleNextQuestion
  split_ifs with hlt
  · simp only [applyEffects, List.foldl_cons, List.foldl_nil, applyEffect]
    omega
  · simpa [applyEffects] using h

/-- Previous keeps the index inside the question list. -/
theorem previous_index_valid (s : State) (h : s.currentQuestion < s.questions.length) :
    (applyEffects s (handlePreviousQuestion s)).currentQuestion < s.questions.length := by
  unfold handlePreviousQuestion
  split_ifs with hlt
  · simp only [applyEffects, List.foldl_cons, List.foldl_nil, applyEffect]
    omega
  · simpa [applyEffects] using h

/-- Every action keeps the index inside the question list. -/
theorem step_index_valid (s : State) (a : Action)
    (h : s.currentQuestion < s.questions.length) :
    (step s a).currentQuestion < (step s a).questions.length := by
  rw [(step_frame s a).2.1]
  cases a with
  | start =>
    simp only [step, actionEffects, handleStartQuiz, applyEffects, List.foldl_cons,
      List.foldl_nil, applyEffect]
    omega
  | selectAnswer q i =>
    rw [step_selectAnswer]
    exact h
  | next =>
    exact next_index_valid s h
  | previous =>
    exact previous_index_valid s h
  | skip =>
    simp only [step, actionEffects, handleSkipQuestion]
    cases s.questions[s.currentQuestion]? with
    | none => simpa [applyEffects] using h
    | some q =>
      split_ifs with hlt
      · simp only [applyEffects, List.foldl_cons, List.foldl_nil, applyEffect]
        omega
      · simpa [applyEffects, applyEffect] using h
  | jump index =>
    simp only [step, actionEffects, jumpToQuestion_eq]
    split_ifs with hlt
    · simpa [applyEffects, applyEffect] using hlt
    · simpa [applyEffects] using h
  | submitClick outcome =>
    simp only [step, actionEffects, submitButtonOnClick]
    rw [(handleSubmitQuiz_frame s JSValue.object outcome).2.2.1]
    exact h
  | autoSubmit r outcome =>
    simp only [step, actionEffects, (handleAutoSubmit_inert r s outcome).2]
    exact h
  | goBack =>
    simp only [step, actionEffects, skipModalGoBack]
    split_ifs with hfound
    · simp only [applyEffects, List.foldl_cons, List.foldl_nil, applyEffect]
      exact findIndex_lt_length _ s.questions hfound
    · simpa [applyEffects, applyEffect] using h
  | confirmSubmit outcome =>
    have hf := (handleSubmitQuiz_frame { s with showSkipModal := false } (JSValue.bool true)
      outcome).2.2.1
    have hsame : handleSubmitQuiz { s with showSkipModal := false } (JSValue.bool true) outcome =
        handleSubmitQuiz s (JSValue.bool true) outcome := rfl
    rw [hsame] at hf
    simp only [step, actionEffects, skipModalConfirmSubmit, applyEffects, List.foldl_cons,
      applyEffect] at hf ⊢
    rw [hf]
    exact h
  | tick r =>
    simp only [step, actionEffects]
    rcases timerEffectTick_cases r s with h1 | h1 | ⟨-, h1⟩ | ⟨-, h1⟩ <;> rw [h1] <;> exact h

/-- The index stays inside the question list along any sequence of actions. -/
theorem runActions_index_valid (actions : List Action) : ∀ (s : State),
    s.currentQuestion < s.questions.length →
    (runActions s actions).currentQuestion < (runActions s actions).questions.length := by
  induction actions with
  | nil => intro s h; exact h
  | cons a rest ih =>
    intro s h
    exact ih (step s a) (step_index_valid s a h)

/-- C17: `currentQuestion < questions.length` (and `0 ≤ currentQuestion`, the index being a
natural number) holds after start on a non-empty question list, is preserved by every action
(next, previous, skip, a click on a question indicator, Go Back from the skip modal, and all
the others), hence holds in every state of a session on a loaded challenge, where the
displayed question `questions[currentQuestion]` therefore exists. -/
theorem C17_index_in_range (s : State) (challenge : Challenge) (questions : List Question)
    (actions : List Action) (hne : questions ≠ []) :
    (s.questions ≠ [] →
      (step s Action.start).currentQuestion < (step s Action.start).questions.length) ∧
    (∀ a : Action, s.currentQuestion < s.questions.length →
      (step s a).currentQuestion < (step s a).questions.length) ∧
    (runActions (loadedState challenge questions) actions).currentQuestion <
      (runActions (loadedState challenge questions) actions).questions.length ∧
    (∃ q, (runActions (loadedState challenge questions) actions).questions[
      (runActions (loadedState challenge questions) actions).currentQuestion]? = some q) := by
  have hlen : 0 < questions.length := List.length_pos.mpr hne
  have hrun := runActions_index_valid actions (loadedState challenge questions)
    (by simpa [loadedState] using hlen)
  refine ⟨?_, fun a h => step_index_valid s a h, hrun, ?_⟩
  · intro hs
    have : 0 < s.questions.length := List.length_pos.mpr hs
    simpa [step, actionEffects, handleStartQuiz, applyEffects, applyEffect] using this
  · exact ⟨_, List.getElem?_eq_getElem hrun⟩

/-- Witness for C17: start, skip twice, go back, jump to the last indicator, next. -/
theorem C17_index_in_range_witness :
    (runActions (loadedState ⟨10⟩ threeQuestions)
        [Action.start, Action.skip, Action.skip, Action.goBack, Action.jump 2,
          Action.next]).currentQuestion <
      (runActions (loadedState ⟨10⟩ threeQuestions)
        [Action.start, Action.skip, Action.skip, Action.goBack, Action.jump 2,
          Action.next]).questions.length :=
  (C17_index_in_range (loadedState ⟨10⟩ threeQuestions) ⟨10⟩ threeQuestions
    [Action.start, Action.skip, Action.skip, Action.goBack, Action.jump 2, Action.next]
    (by decide)).2.2.1

/-- C18: with `question` the one at the current index `i` of `n` questions, skip adds its id
to the skipped set and then moves to `i + 1` when `i < n - 1` and stays otherwise; nothing
else is written (answers keep their value), every earlier member stays in the set, in its
place, and the only possible new member is that id. -/
theorem C18_skip_adds_and_advances (s : State) (question : Question)
    (hq : s.questions[s.currentQuestion]? = some question) :
    applyEffects s (handleSkipQuestion s) =
      { s with
        skippedQuestions := addToSet s.skippedQuestions question.id
        currentQuestion :=
          if s.currentQuestion < s.questions.length - 1 then s.currentQuestion + 1
          else s.currentQuestion } ∧
    question.id ∈ (applyEffects s (handleSkipQuestion s)).skippedQuestions ∧
    (∀ id, id ∈ (applyEffects s (handleSkipQuestion s)).skippedQuestions ↔
      (id ∈ s.skippedQuestions ∨ id = question.id)) ∧
    s.skippedQuestions <+: (applyEffects s (handleSkipQuestion s)).skippedQuestions ∧
    (applyEffects s (handleSkipQuestion s)).answers = s.answers := by
  have hmain : applyEffects s (handleSkipQuestion s) =
      { s with
        skippedQuestions := addToSet s.skippedQuestions question.id
        currentQuestion :=
          if s.currentQuestion < s.questions.length - 1 then s.currentQuestion + 1
          else s.currentQuestion } := by
    have hi : s.currentQuestion < s.questions.length := by
      by_contra hge
      rw [List.getElem?_eq_none (by omega)] at hq
      cases hq
    simp only [handleSkipQuestion, hq]
    by_cases h : s.currentQuestion < s.questions.length - 1
    · have h' : (s.currentQuestion : Int) < (s.questions.length : Int) - 1 := by omega
      simp [h, h', applyEffects, applyEffect]
    · have h' : ¬ (s.currentQuestion : Int) < (s.questions.length : Int) - 1 := by omega
      simp [h, h', applyEffects, applyEffect]
  have hmem : ∀ id, id ∈ addToSet s.skippedQuestions question.id ↔
      (id ∈ s.skippedQuestions ∨ id = question.id) := by
    intro id
    unfold addToSet
    split_ifs with hin
    · constructor
      · exact Or.inl
      · rintro (h | h)
        · exact h
        · rw [h]; exact hin
    · simp
  have hpre : s.skippedQuestions <+: addToSet s.skippedQuestions question.id := by
    unfold addToSet
    split_ifs
    · exact List.prefix_refl _
    · exact List.prefix_append _ _
  rw [hmain]
  exact ⟨rfl, (hmem question.id).mpr (Or.inr rfl), hmem, hpre, rfl⟩

/-- Witness for C18: skipping the first of three questions of a started session. -/
theorem C18_skip_adds_and_advances_witness :
    (startedState ⟨10⟩ threeQuestions).questions[
      (startedState ⟨10⟩ threeQuestions).currentQuestion]? = some ⟨11, 2⟩ ∧
    (applyEffects (startedState ⟨10⟩ threeQuestions)
      (handleSkipQuestion (startedState ⟨10⟩ threeQuestions))).skippedQuestions = [11] ∧
    (applyEffects (startedState ⟨10⟩ threeQuestions)
      (handleSkipQuestion (startedState ⟨10⟩ threeQuestions))).currentQuestion = 1 :=
  ⟨by decide,
   by
    rw [(C18_skip_adds_and_advances (startedState ⟨10⟩ threeQuestions) ⟨11, 2⟩ (by decide)).1]
    decide,
   by
    rw [(C18_skip_adds_and_advances (startedState ⟨10⟩ threeQuestions) ⟨11, 2⟩ (by decide)).1]
    decide⟩

/-! ## The clock -/

/-- No action makes a non-negative clock negative, and no action makes it larger. -/
theorem step_timeLeft (s : State) (a : Action) (h : 0 ≤ s.timeLeft) :
    0 ≤ (step s a).timeLeft ∧ (step s a).timeLeft ≤ s.timeLeft := by
  cases a with
  | tick r =>
    simp only [step, actionEffects]
    rcases timerEffectTick_cases r s with h1 | h1 | ⟨-, h1⟩ | ⟨hlt, h1⟩ <;> rw [h1] <;>
      simp only [applyEffects, List.foldl_cons, List.foldl_nil, applyEffect] <;> omega
  | start => rw [(step_frame s _).2.2.1 (fun r => by simp)]; omega
  | selectAnswer q i => rw [(step_frame s _).2.2.1 (fun r => by simp)]; omega
  | next => rw [(step_frame s _).2.2.1 (fun r => by simp)]; omega
  | previous => rw [(step_frame s _).2.2.1 (fun r => by simp)]; omega
  | skip => rw [(step_frame s _).2.2.1 (fun r => by simp)]; omega
  | jump index => rw [(step_frame s _).2.2.1 (fun r => by simp)]; omega
  | submitClick outcome => rw [(step_frame s _).2.2.1 (fun r => by simp)]; omega
  | autoSubmit r outcome => rw [(step_frame s _).2.2.1 (fun r => by simp)]; omega
  | goBack => rw [(step_frame s _).2.2.1 (fun r => by simp)]; omega
  | confirmSubmit outcome => rw [(step_frame s _).2.2.1 (fun r => by simp)]; omega

/-- C19: the first tick of a started 5-minute challenge has `prevTime = 300` with the warning
flags clear: the updater throws at `toast.warning` (line 90) and returns no value, so
`timeLeft` stays 300 where the claim has 299. The same happens at 60 and at 30 seconds. And an
interval installed at a positive `timeLeft` still fires when `timeLeft` is 0, since `timeLeft`
is not a dependency of the timer effect (line 107): that tick goes from 0 to 0 and queues the
auto-submit again, so the clock does not decrease strictly while the timer runs. -/
theorem C19_tick_throws_at_thresholds :
    (startedState ⟨5⟩ threeQuestions).timeLeft = 300 ∧
    timerActive (startedState ⟨5⟩ threeQuestions) = true ∧
    (timerTick (startedState ⟨5⟩ threeQuestions).timeWarnings 300).1 = none ∧
    (timerTick ⟨false, false, false⟩ 60).1 = none ∧
    (timerTick ⟨false, false, false⟩ 30).1 = none ∧
    timerEffectTick (startedState ⟨5⟩ threeQuestions) (startedState ⟨5⟩ threeQuestions) =
      [Effect.throwTypeError "toast.warning is not a function"] ∧
    (step (startedState ⟨5⟩ threeQuestions)
        (Action.tick (startedState ⟨5⟩ threeQuestions))).timeLeft = 300 ∧
    timerActive skippedState = true ∧
    intervalInstalled skippedState { lastSecondState with timeLeft := 0 } = true ∧
    timerEffectTick skippedState { lastSecondState with timeLeft := 0 } =
      [Effect.scheduleAutoSubmit, Effect.setTimeLeft 0] ∧
    (step { lastSecondState with timeLeft := 0 } (Action.tick skippedState)).timeLeft = 0 := by
  decide

/-- C20: the interval is installed exactly when `quizStarted`, `timeLeft > 0`, not
`quizCompleted` and not `submitting`; an installed timer implies the phase InProgress, and in
every state whose phase is NotStarted, Submitting or Completed a tick has no effect at all,
whichever render `r` the timer effect last ran in: no write to `timeLeft`, no scheduled
auto-submit, the state stays as it is. -/
theorem C20_timer_only_in_progress (r s : State) :
    (timerActive s = true ↔
      (s.quizStarted = true ∧ 0 < s.timeLeft ∧ s.quizCompleted = false ∧ s.submitting = false)) ∧
    (timerActive s = true → s.phase = Phase.InProgress) ∧
    (s.phase ≠ Phase.InProgress →
      timerActive s = false ∧ timerEffectTick r s = [] ∧ step s (Action.tick r) = s ∧
      Effect.scheduleAutoSubmit ∉ timerEffectTick r s) := by
  have hiff : timerActive s = true ↔
      (s.quizStarted = true ∧ 0 < s.timeLeft ∧ s.quizCompleted = false ∧ s.submitting = false) := by
    simp only [timerActive, Bool.and_eq_true, decide_eq_true_eq, Bool.not_eq_true']
    tauto
  have hphase : timerActive s = true → s.phase = Phase.InProgress := by
    intro h
    obtain ⟨hq, -, hc, hsub⟩ := hiff.mp h
    simp [State.phase, hq, hc, hsub]
  refine ⟨hiff, hphase, ?_⟩
  intro hne
  have hoff : timerActive s = false := by
    cases h : timerActive s
    · rfl
    · exact absurd (hphase h) hne
  have hgone : intervalInstalled r s = false := by
    cases h : intervalInstalled r s
    · rfl
    · exact absurd (intervalInstalled_phase r s h) hne
  have hnone : timerEffectTick r s = [] := by simp [timerEffectTick, hgone]
  refine ⟨hoff, hnone, ?_, ?_⟩
  · simp [step, actionEffects, hnone, applyEffects]
  · rw [hnone]
    simp

/-- Witness for C20: no tick in the Completed state of the three-question session, for the
interval of the render that was in progress. -/
theorem C20_timer_only_in_progress_witness :
    completedState.phase = Phase.Completed ∧
    timerEffectTick inProgressState completedState = [] ∧
    step completedState (Action.tick inProgressState) = completedState :=
  ⟨by decide,
   ((C20_timer_only_in_progress inProgressState completedState).2.2 (by decide)).2.1,
   ((C20_timer_only_in_progress inProgressState completedState).2.2 (by decide)).2.2.1⟩

/-! ## Warnings along arbitrary sessions -/

/-- No handler emits a warning notification: the only calls are those of the tick updater, and
they throw. -/
theorem no_warning_emitted (s : State) (a : Action) (k : WarningKind) :
    warningCount k (actionEffects s a) = 0 := by
  have hsubmit : ∀ (f : JSValue) (o : ApiOutcome),
      warningCount k (handleSubmitQuiz s f o) = 0 := by
    intro f o
    unfold handleSubmitQuiz
    split_ifs
    · rfl
    · cases k <;> simp [warningCount, warningToast]
    · cases s.challenge <;> cases o <;> cases k <;> simp [warningCount, warningToast]
  cases a with
  | start => cases k <;> simp [actionEffects, handleStartQuiz, warningCount, warningToast]
  | selectAnswer q i =>
    cases k <;> simp [actionEffects, handleAnswerSelect, warningCount, warningToast]
  | next =>
    simp only [actionEffects, handleNextQuestion]
    split_ifs <;> cases k <;> simp [warningCount, warningToast]
  | previous =>
    simp only [actionEffects, handlePreviousQuestion]
    split_ifs <;> cases k <;> simp [warningCount, warningToast]
  | skip =>
    simp only [actionEffects, handleSkipQuestion]
    cases s.questions[s.currentQuestion]? with
    | none => rfl
    | some q => split_ifs <;> cases k <;> simp [warningCount, warningToast]
  | jump index =>
    simp only [actionEffects, jumpToQuestion_eq]
    split_ifs <;> cases k <;> simp [warningCount, warningToast]
  | submitClick outcome => exact hsubmit _ _
  | autoSubmit r outcome =>
    simp only [actionEffects]
    rcases handleAutoSubmit_cases r outcome with h | h <;> rw [h] <;> cases k <;>
      simp [warningCount, warningToast]
  | goBack =>
    simp only [actionEffects, skipModalGoBack]
    split_ifs <;> cases k <;> simp [warningCount, warningToast]
  | confirmSubmit outcome =>
    have h := hsubmit (JSValue.bool true) outcome
    simp only [actionEffects, skipModalConfirmSubmit, warningCount, List.count_cons] at h ⊢
    rw [h]
    cases k <;> simp [warningToast]
  | tick r =>
    simp only [actionEffects]
    rcases timerEffectTick_cases r s with h | h | ⟨-, h⟩ | ⟨-, h⟩ <;> rw [h] <;> cases k <;>
      simp [warningCount, warningToast]

/-- No sequence of actions emits a warning notification. -/
theorem session_no_warning (actions : List Action) : ∀ (s : State) (k : WarningKind),
    warningCount k (actionsTrace s actions) = 0 := by
  induction actions with
  | nil => intro s k; rfl
  | cons a rest ih =>
    intro s k
    have h1 := no_warning_emitted s a k
    have h2 := ih (step s a) k
    simp only [actionsTrace, warningCount, List.count_append] at h1 h2 ⊢
    rw [h1, h2]

/-- C12: in the started 2-minute challenge (`T0 = 120`) sixty ticks bring the clock to 60 with all
flags clear. The next tick, `prevTime = 60`, throws at `toast.warning` (line 93): no warning is
shown, the `setTimeWarnings` of line 94 is not reached, the clock stays at 60, and the 30-second
threshold is never reached. The claim has the 60 s and the 30 s warning once each. In general
no sequence of actions, from any state, emits a warning. -/
theorem C12_warning_call_throws (s : State) (actions : List Action) (kind : WarningKind) :
    warningCount kind (actionsTrace s actions) = 0 ∧
    (startedState ⟨2⟩ threeQuestions).timeLeft = 120 ∧
    (startedState ⟨2⟩ threeQuestions).timeWarnings = ⟨false, false, false⟩ ∧
    timerActive (startedState ⟨2⟩ threeQuestions) = true ∧
    runActions (startedState ⟨2⟩ threeQuestions)
        (List.replicate 60 (Action.tick (startedState ⟨2⟩ threeQuestions))) =
      { startedState ⟨2⟩ threeQuestions with timeLeft := 60 } ∧
    timerEffectTick (startedState ⟨2⟩ threeQuestions)
        { startedState ⟨2⟩ threeQuestions with timeLeft := 60 } =
      [Effect.throwTypeError "toast.warning is not a function"] ∧
    runActions (startedState ⟨2⟩ threeQuestions)
        (List.replicate 120 (Action.tick (startedState ⟨2⟩ threeQuestions))) =
      { startedState ⟨2⟩ threeQuestions with timeLeft := 60 } := by
  refine ⟨session_no_warning actions s kind, by decide, by decide, by decide, ?_, by decide, ?_⟩
  · set_option maxRecDepth 100000 in decide
  · set_option maxRecDepth 100000 in decide

/-! ## Submission payload -/

/-- C21: every `submitChallenge` call issued by `handleSubmitQuiz` carries the answers of the
snapshot and `time_taken = time_limit * 60 - timeLeft`, and the result stored on success has the
same value as `timeTaken`. -/
theorem C21_submission_payload (s : State) (forceSubmit : JSValue) (outcome : ApiOutcome)
    (answers : Answers) (time_taken : Int)
    (h : Effect.submitChallenge answers time_taken ∈ handleSubmitQuiz s forceSubmit outcome) :
    answers = s.answers ∧
    ∃ challenge, s.challenge = some challenge ∧
      time_taken = challenge.time_limit * 60 - s.timeLeft ∧
      (∀ r, Effect.setResult (some r) ∈ handleSubmitQuiz s forceSubmit outcome →
        r.timeTaken = time_taken) := by
  unfold handleSubmitQuiz at h ⊢
  split_ifs at h ⊢ with h1 h2
  · simp at h
  · simp at h
  · cases hc : s.challenge with
    | none => simp [hc] at h
    | some challenge =>
      cases outcome with
      | resolved =>
        simp only [hc] at h ⊢
        simp at h
        obtain ⟨ha, ht⟩ := h
        refine ⟨ha, challenge, rfl, ht, ?_⟩
        intro r hr
        simp at hr
        rw [hr, ht]
        rfl
      | rejected =>
        simp only [hc] at h ⊢
        simp at h
        obtain ⟨ha, ht⟩ := h
        refine ⟨ha, challenge, rfl, ht, ?_⟩
        intro r hr
        simp at hr

/-- Witness for C21: a 10 minute limit with 480 seconds left gives `time_taken = 120`, also as
`timeTaken` of the stored result. -/
theorem C21_submission_payload_witness :
    Effect.submitChallenge mixedAnswers 120 ∈
      handleSubmitQuiz inProgressState (JSValue.bool true) ApiOutcome.resolved ∧
    inProgressState.timeLeft = 480 ∧
    (mixedAnswers = inProgressState.answers ∧
      ∃ challenge, inProgressState.challenge = some challenge ∧
        (120 : Int) = challenge.time_limit * 60 - inProgressState.timeLeft ∧
        (∀ r, Effect.setResult (some r) ∈
            handleSubmitQuiz inProgressState (JSValue.bool true) ApiOutcome.resolved →
          r.timeTaken = 120)) :=
  ⟨by decide, by decide,
   C21_submission_payload inProgressState (JSValue.bool true) ApiOutcome.resolved mixedAnswers 120
     (by decide)⟩

/-! ## Navigation-away guard -/

/-- C22 fails as stated: while a submission of a started quiz is in flight (phase Submitting)
the guard is still installed, `beforeunload` is intercepted and `popstate` prompts. -/
theorem C22_guard_active_while_submitting :
    submittingState.phase = Phase.Submitting ∧
    navigationGuardInstalled submittingState = true ∧
    onBeforeUnload submittingState = [Effect.preventDefault, Effect.setReturnValue ""] ∧
    onPopState submittingState false =
      [ Effect.preventDefault,
        Effect.confirmPrompt "Are you sure you want to leave? Your progress will be lost.",
        Effect.historyPushState ] := by
  decide

/-- C22, amended: the guard is installed, intercepts and prompts exactly while `quizStarted` and
not `quizCompleted`. In every NotStarted or Completed state the `beforeunload` and `popstate`
handlers do nothing. In InProgress (and in Submitting when the quiz was started) they
intercept; declining the prompt pushes the history entry back and leaves the state as it is,
confirming sets `quizStarted` to `false` and routes to `/challenges`. -/
theorem C22_navigation_guard (s : State) (confirmLeave : Bool) :
    (navigationGuardInstalled s = true ↔ (s.quizStarted = true ∧ s.quizCompleted = false)) ∧
    ((s.phase = Phase.NotStarted ∨ s.phase = Phase.Completed) →
      onBeforeUnload s = [] ∧ onPopState s confirmLeave = []) ∧
    ((s.phase = Phase.InProgress ∨ (s.phase = Phase.Submitting ∧ s.quizStarted = true)) →
      onBeforeUnload s = [Effect.preventDefault, Effect.setReturnValue ""] ∧
      onPopState s false =
        [ Effect.preventDefault,
          Effect.confirmPrompt "Are you sure you want to leave? Your progress will be lost.",
          Effect.historyPushState ] ∧
      applyEffects s (onPopState s false) = s ∧
      onPopState s true =
        [ Effect.preventDefault,
          Effect.confirmPrompt "Are you sure you want to leave? Your progress will be lost.",
          Effect.setQuizStarted false,
          Effect.navigate "/challenges" ] ∧
      applyEffects s (onPopState s true) = { s with quizStarted := false }) := by
  refine ⟨?_, ?_, ?_⟩
  · simp [navigationGuardInstalled]
  · intro h
    have hoff : (s.quizStarted && !s.quizCompleted) = false := by
      cases hq : s.quizStarted <;> cases hc : s.quizCompleted <;> cases hs : s.submitting <;>
        simp [State.phase, hq, hc, hs] at h ⊢
    simp [onBeforeUnload, onPopState, navigationGuardInstalled, hoff]
  · intro h
    have hon : (s.quizStarted && !s.quizCompleted) = true := by
      cases hq : s.quizStarted <;> cases hc : s.quizCompleted <;> cases hs : s.submitting <;>
        simp [State.phase, hq, hc, hs] at h ⊢
    simp [onBeforeUnload, onPopState, navigationGuardInstalled, handleBeforeUnload,
      handlePopState, hon, applyEffects, applyEffect]

/-- Witness for C22 (amended): inert on the loaded and on the completed session, prompting on
the session in progress. -/
theorem C22_navigation_guard_witness :
    (loadedState ⟨10⟩ threeQuestions).phase = Phase.NotStarted ∧
    onPopState (loadedState ⟨10⟩ threeQuestions) true = [] ∧
    onPopState completedState true = [] ∧
    applyEffects inProgressState (onPopState inProgressState true) =
      { inProgressState with quizStarted := false } :=
  ⟨by decide,
   ((C22_navigation_guard (loadedState ⟨10⟩ threeQuestions) true).2.1 (Or.inl (by decide))).2,
   ((C22_navigation_guard completedState true).2.1 (Or.inr (by decide))).2,
   ((C22_navigation_guard inProgressState true).2.2 (Or.inl (by decide))).2.2.2.2⟩

/-! ## The completed session -/

/-- With the quiz completed and a result set, the screen is neither the quiz nor the start
screen. -/
theorem completed_view (s : State) (hc : s.quizCompleted = true) (hr : s.result ≠ none) :
    view s ≠ View.inProgress ∧ view s ≠ View.start := by
  have hsome : s.result.isSome = true := Option.isSome_iff_ne_none.mpr hr
  unfold view
  split
  · simp
  · split
    · simp
    · split
      · simp
      · simp [hc, hsome]

/-- The handlers for answer select, previous and skip have no phase check of their own: run
directly on the Completed state they would still write `answers`, `currentQuestion` and the
skipped set. What keeps the Completed state fixed is the screen, see `completed_view`. -/
theorem handlers_write_when_completed :
    completedState.quizCompleted = true ∧
    completedState.result ≠ none ∧
    (step completedState (Action.selectAnswer 12 0)).answers ≠ completedState.answers ∧
    (step completedState Action.previous).currentQuestion ≠ completedState.currentQuestion ∧
    (step completedState Action.skip).skippedQuestions ≠ completedState.skippedQuestions := by
  decide

/-- C23: once `quizCompleted = true` with a result set, no further action is accepted: the
rendered screen is not the quiz screen (nor the start screen), so it offers no control for
answer select, next, previous, jump, skip, submit or the modal buttons; the timer is not
installed; the auto-submit callback writes nothing. Every action requested in that state
leaves the whole state, with answers, skipped set, index, clock and result, as it is. -/
theorem C23_completed_accepts_nothing (s : State) (a : Action)
    (hc : s.quizCompleted = true) (hr : s.result ≠ none) :
    view s ≠ View.inProgress ∧ view s ≠ View.start ∧
    timerActive s = false ∧
    userStep s a = s := by
  obtain ⟨hv1, hv2⟩ := completed_view s hc hr
  have htimer : timerActive s = false := by simp [timerActive, hc]
  refine ⟨hv1, hv2, htimer, ?_⟩
  cases a with
  | autoSubmit r outcome =>
    simp [userStep, controlAvailable, step, actionEffects, (handleAutoSubmit_inert r s outcome).2]
  | tick r =>
    have hgone : intervalInstalled r s = false := by
      cases h : intervalInstalled r s
      · rfl
      · have hp := intervalInstalled_phase r s h
        simp [State.phase, hc] at hp
    simp [userStep, controlAvailable, hgone]
  | start => simp [userStep, controlAvailable, hv2]
  | selectAnswer q i => simp [userStep, controlAvailable, hv1]
  | next => simp [userStep, controlAvailable, hv1]
  | previous => simp [userStep, controlAvailable, hv1]
  | skip => simp [userStep, controlAvailable, hv1]
  | jump index => simp [userStep, controlAvailable, hv1]
  | submitClick outcome => simp [userStep, controlAvailable, hv1]
  | goBack => simp [userStep, controlAvailable, hv1]
  | confirmSubmit outcome => simp [userStep, controlAvailable, hv1]

/-- Witness for C23: an answer select requested on the completed session. -/
theorem C23_completed_accepts_nothing_witness :
    completedState.quizCompleted = true ∧
    view completedState = View.results ∧
    userStep completedState (Action.selectAnswer 12 0) = completedState :=
  ⟨by decide, by decide,
   (C23_completed_accepts_nothing completedState (Action.selectAnswer 12 0) (by decide)
      (by decide)).2.2.2⟩

/-! ## REST client -/

/-- C24: the error callback of the response interceptor always rejects with the error it
received. With status 401 it removes the token from `localStorage` and `sessionStorage` and
sets the location to `/login`; with any other status (403 included) or no response at all it
leaves both stores and the location as they are. So the browser is left changed only by a 401. -/
theorem C24_interceptor_clears_only_on_401 (b : Browser) (error : ApiError) :
    (responseErrorInterceptor b error).2 = error ∧
    (error.status = some 401 →
      (responseErrorInterceptor b error).1 =
        { localToken := none, sessionToken := none, location := "/login" }) ∧
    (error.status ≠ some 401 → (responseErrorInterceptor b error).1 = b) ∧
    ((responseErrorInterceptor b error).1 ≠ b → error.status = some 401) := by
  unfold responseErrorInterceptor
  refine ⟨?_, ?_, ?_, ?_⟩
  · split_ifs <;> rfl
  · intro h
    simp [h]
  · intro h
    simp [h]
  · intro h
    by_contra hne
    apply h
    simp [hne]

/-- Witness for C24: a 401 and a 403 on a browser holding a token on the quiz page. -/
theorem C24_interceptor_clears_only_on_401_witness :
    (responseErrorInterceptor ⟨some "jwt", none, "/challenge/7"⟩ ⟨some 401, "Unauthorized"⟩).1 =
      ⟨none, none, "/login"⟩ ∧
    (responseErrorInterceptor ⟨some "jwt", none, "/challenge/7"⟩ ⟨some 403, "Forbidden"⟩).1 =
      ⟨some "jwt", none, "/challenge/7"⟩ :=
  ⟨(C24_interceptor_clears_only_on_401 ⟨some "jwt", none, "/challenge/7"⟩
      ⟨some 401, "Unauthorized"⟩).2.1 rfl,
   (C24_interceptor_clears_only_on_401 ⟨some "jwt", none, "/challenge/7"⟩
      ⟨some 403, "Forbidden"⟩).2.2.1 (by decide)⟩

/-- C26: `getLeaderboard` requests `/leaderboard/{challengeId}` exactly when the type is
`'challenge'` and `challengeId` is a non-empty string; in every other case it requests
`/leaderboard` with the parameter `type` (the default `'global'` for a missing argument),
followed by `challenge_id` exactly when `challengeId` is a non-empty string. -/
theorem C26_leaderboard_request (type : Option String) (challengeId : Option String) :
    ((type = some "challenge" ∧ ∃ id, challengeId = some id ∧ id ≠ "") →
      ∃ id, challengeId = some id ∧
        getLeaderboard type challengeId = { url := "/leaderboard/" ++ id, params := [] }) ∧
    (¬ (type = some "challenge" ∧ ∃ id, challengeId = some id ∧ id ≠ "") →
      (getLeaderboard type challengeId).url = "/leaderboard" ∧
      ((∃ id, challengeId = some id ∧ id ≠ "") →
        ∃ id, challengeId = some id ∧
          (getLeaderboard type challengeId).params =
            [("type", type.getD "global"), ("challenge_id", id)]) ∧
      (¬ (∃ id, challengeId = some id ∧ id ≠ "") →
        (getLeaderboard type challengeId).params = [("type", type.getD "global")])) := by
  have htruthy : idTruthy challengeId = true ↔ ∃ id, challengeId = some id ∧ id ≠ "" := by
    cases challengeId with
    | none => simp [idTruthy]
    | some id => simp [idTruthy]
  have htype : type.getD "global" = "challenge" ↔ type = some "challenge" := by
    cases type with
    | none => simp
    | some t => simp
  refine ⟨?_, ?_⟩
  · rintro ⟨ht, id, hid, hne⟩
    refine ⟨id, hid, ?_⟩
    have h1 : idTruthy challengeId = true := htruthy.mpr ⟨id, hid, hne⟩
    subst hid
    simp [getLeaderboard, ht, h1]
  · intro hn
    have hcond : ¬ (type.getD "global" = "challenge" ∧ idTruthy challengeId = true) := by
      rintro ⟨h1, h2⟩
      exact hn ⟨htype.mp h1, htruthy.mp h2⟩
    refine ⟨?_, ?_, ?_⟩
    · simp only [getLeaderboard, hcond, if_false]
    · rintro ⟨id, hid, hne⟩
      refine ⟨id, hid, ?_⟩
      have h1 : idTruthy challengeId = true := htruthy.mpr ⟨id, hid, hne⟩
      subst hid
      simp only [getLeaderboard]
      rw [if_neg hcond]
      simp [h1]
    · intro hno
      have h1 : idTruthy challengeId = false := by
        cases h : idTruthy challengeId
        · rfl
        · exact absurd (htruthy.mp h) hno
      simp [getLeaderboard, hcond, h1]

/-- Witness for C26: the two refresh calls made after a submission of challenge "7". -/
theorem C26_leaderboard_request_witness :
    getLeaderboard (some "challenge") (some "7") = { url := "/leaderboard/7", params := [] } ∧
    (getLeaderboard (some "global") none).url = "/leaderboard" ∧
    (getLeaderboard (some "global") none).params = [("type", "global")] := by
  refine ⟨?_, ?_, ?_⟩
  · obtain ⟨id, hid, h⟩ := (C26_leaderboard_request (some "challenge") (some "7")).1
      ⟨rfl, "7", rfl, by decide⟩
    cases hid
    exact h
  · exact ((C26_leaderboard_request (some "global") none).2 (by simp)).1
  · exact ((C26_leaderboard_request (some "global") none).2 (by simp)).2.2 (by simp)

/-! ## Admin create-question form -/

/-- Trimming leaves nothing exactly when every character is whitespace. -/
theorem jsTrim_eq_nil_iff (cs : List Char) :
    jsTrim cs = [] ↔ ∀ c ∈ cs, jsWhitespace c = true := by
  unfold jsTrim
  rw [List.reverse_eq_nil_iff, List.dropWhile_eq_nil_iff]
  constructor
  · intro h
    have hall : ∀ c ∈ cs.dropWhile jsWhitespace, jsWhitespace c = true := by
      intro c hc
      exact h c (List.mem_reverse.mpr hc)
    have hnil : cs.dropWhile jsWhitespace = [] := by
      cases hd : cs.dropWhile jsWhitespace with
      | nil => rfl
      | cons a rest =>
        exfalso
        have hne : cs.dropWhile jsWhitespace ≠ [] := by rw [hd]; simp
        have hhead := List.head_dropWhile_not jsWhitespace cs hne
        have ha : jsWhitespace a = true := hall a (by rw [hd]; exact List.mem_cons_self a rest)
        have hheq : (cs.dropWhile jsWhitespace).head hne = a := by simp [hd]
        rw [hheq, ha] at hhead
        cases hhead
    exact List.dropWhile_eq_nil_iff.mp hnil
  · intro h c hc
    have hnil : cs.dropWhile jsWhitespace = [] := List.dropWhile_eq_nil_iff.mpr h
    rw [hnil] at hc
    simp at hc

/-- The test `!opt.trim()` holds exactly for the empty and the whitespace-only strings. -/
theorem optionBlank_iff (opt : String) :
    optionBlank opt = true ↔ ∀ c ∈ opt.data, jsWhitespace c = true := by
  unfold optionBlank
  rw [List.isEmpty_iff, jsTrim_eq_nil_iff]

/-- C25: when some option of the form is empty or consists of whitespace only,
`handleCreateQuestion` shows the validation error and returns: no `createQuestion` call, no
write to the form, no refresh of the question list. When every option has a non-whitespace
character, the `createQuestion` call is made, once, with the form contents. -/
theorem C25_blank_option_blocks_create (newQuestion : NewQuestion) (created : Bool)
    (serverError : Option String) :
    ((∃ opt ∈ newQuestion.options, ∀ c ∈ opt.data, jsWhitespace c = true) →
      handleCreateQuestion newQuestion created serverError =
        [AdminEffect.preventDefault, AdminEffect.toastError "All options must be filled"] ∧
      (handleCreateQuestion newQuestion created serverError).countP AdminEffect.isCreateCall = 0 ∧
      (handleCreateQuestion newQuestion created serverError).countP
        AdminEffect.writesFormOrList = 0) ∧
    ((∀ opt ∈ newQuestion.options, ∃ c ∈ opt.data, jsWhitespace c = false) →
      (handleCreateQuestion newQuestion created serverError).take 2 =
        [AdminEffect.preventDefault, AdminEffect.createQuestion newQuestion] ∧
      (handleCreateQuestion newQuestion created serverError).countP AdminEffect.isCreateCall = 1) := by
  constructor
  · rintro ⟨opt, hopt, hblank⟩
    have hany : newQuestion.options.any optionBlank = true := by
      rw [List.any_eq_true]
      exact ⟨opt, hopt, (optionBlank_iff opt).mpr hblank⟩
    have heq : handleCreateQuestion newQuestion created serverError =
        [AdminEffect.preventDefault, AdminEffect.toastError "All options must be filled"] := by
      simp [handleCreateQuestion, hany]
    rw [heq]
    exact ⟨rfl, rfl, rfl⟩
  · intro hall
    have hany : newQuestion.options.any optionBlank = false := by
      rw [Bool.eq_false_iff]
      intro h
      rw [List.any_eq_true] at h
      obtain ⟨opt, hopt, hb⟩ := h
      obtain ⟨c, hc, hcw⟩ := hall opt hopt
      have := (optionBlank_iff opt).mp hb c hc
      rw [this] at hcw
      cases hcw
    cases created <;>
      simp [handleCreateQuestion, hany, AdminEffect.isCreateCall, List.countP_cons]

/-- Witness for C25: a form whose third option is two spaces, and a form with four options
filled. -/
theorem C25_blank_option_blocks_create_witness :
    handleCreateQuestion ⟨"2+2?", ["3", "4", "  ", "5"], 1, "easy", "CBSE 11"⟩ true none =
      [AdminEffect.preventDefault, AdminEffect.toastError "All options must be filled"] ∧
    (handleCreateQuestion ⟨"2+2?", ["3", "4", "6", "5"], 1, "easy", "CBSE 11"⟩ true none).take 2 =
      [AdminEffect.preventDefault,
       AdminEffect.createQuestion ⟨"2+2?", ["3", "4", "6", "5"], 1, "easy", "CBSE 11"⟩] :=
  ⟨((C25_blank_option_blocks_create ⟨"2+2?", ["3", "4", "  ", "5"], 1, "easy", "CBSE 11"⟩ true
      none).1 ⟨"  ", by decide, by decide⟩).1,
   ((C25_blank_option_blocks_create ⟨"2+2?", ["3", "4", "6", "5"], 1, "easy", "CBSE 11"⟩ true
      none).2 (by decide)).1⟩

/-! ## The skipped set -/

/-- Adding to the set keeps what was there, in place. -/
theorem prefix_addToSet (prev : List Nat) (id : Nat) : prev <+: addToSet prev id := by
  unfold addToSet
  split_ifs
  · exact List.prefix_refl _
  · exact List.prefix_append _ _

/-- Every action other than start keeps the skipped set as a prefix of the new one. -/
theorem step_skipped_prefix (s : State) (a : Action) (ha : a ≠ Action.start) :
    s.skippedQuestions <+: (step s a).skippedQuestions := by
  cases a with
  | start => exact absurd rfl ha
  | selectAnswer q i => rw [step_selectAnswer]
  | next =>
    simp only [step, actionEffects, handleNextQuestion]
    split_ifs <;> simp [applyEffects, applyEffect]
  | previous =>
    simp only [step, actionEffects, handlePreviousQuestion]
    split_ifs <;> simp [applyEffects, applyEffect]
  | skip =>
    simp only [step, actionEffects, handleSkipQuestion]
    cases s.questions[s.currentQuestion]? with
    | none => simp [applyEffects]
    | some q =>
      split_ifs <;>
        simpa [applyEffects, applyEffect] using prefix_addToSet s.skippedQuestions q.id
  | jump index =>
    simp only [step, actionEffects, jumpToQuestion_eq]
    split_ifs <;> simp [applyEffects, applyEffect]
  | submitClick outcome =>
    simp only [step, actionEffects, submitButtonOnClick]
    rw [(handleSubmitQuiz_frame s JSValue.object outcome).2.2.2.2.1]
  | autoSubmit r outcome =>
    simp only [step, actionEffects, (handleAutoSubmit_inert r s outcome).2]
    exact List.prefix_refl _
  | goBack =>
    simp only [step, actionEffects, skipModalGoBack]
    split_ifs <;> simp [applyEffects, applyEffect]
  | confirmSubmit outcome =>
    have hf := (handleSubmitQuiz_frame { s with showSkipModal := false } (JSValue.bool true)
      outcome).2.2.2.2.1
    have hsame : handleSubmitQuiz { s with showSkipModal := false } (JSValue.bool true) outcome =
        handleSubmitQuiz s (JSValue.bool true) outcome := rfl
    rw [hsame] at hf
    simp only [step, actionEffects, skipModalConfirmSubmit, applyEffects, List.foldl_cons,
      applyEffect] at hf ⊢
    rw [hf]
  | tick r =>
    simp only [step, actionEffects]
    rcases timerEffectTick_cases r s with h | h | ⟨-, h⟩ | ⟨-, h⟩ <;> rw [h] <;>
      exact List.prefix_refl _

/-- Along actions without a start, the skipped set only grows. -/
theorem runActions_skipped_prefix (actions : List Action) : ∀ (s : State),
    (∀ a ∈ actions, a ≠ Action.start) →
    s.skippedQuestions <+: (runActions s actions).skippedQuestions := by
  induction actions with
  | nil => intro s _; exact List.prefix_refl _
  | cons a rest ih =>
    intro s h
    have h1 := step_skipped_prefix s a (h a (List.mem_cons_self a rest))
    have h2 := ih (step s a) (fun b hb => h b (List.mem_cons_of_mem a hb))
    exact List.IsPrefix.trans h1 h2

/-- C27: between start and completion (any sequence of actions other than start) the skipped
set only grows: what was skipped stays skipped, in place. Selecting an answer for a skipped
question does not write the skipped set, so the question is then both answered and skipped,
and a non-forced submit on that state is still deferred to the confirmation. -/
theorem C27_skipped_only_grows (s : State) (actions : List Action) (questionId answerIndex : Nat)
    (outcome : ApiOutcome)
    (hnostart : ∀ a ∈ actions, a ≠ Action.start)
    (hskipped : questionId ∈ s.skippedQuestions) (hsub : s.submitting = false) :
    s.skippedQuestions <+: (runActions s actions).skippedQuestions ∧
    (∀ id ∈ s.skippedQuestions, id ∈ (runActions s actions).skippedQuestions) ∧
    (step s (Action.selectAnswer questionId answerIndex)).skippedQuestions = s.skippedQuestions ∧
    (step s (Action.selectAnswer questionId answerIndex)).answers.get questionId =
      some answerIndex ∧
    questionId ∈ (step s (Action.selectAnswer questionId answerIndex)).skippedQuestions ∧
    handleSubmitQuiz (step s (Action.selectAnswer questionId answerIndex)) (JSValue.bool false)
      outcome = [Effect.setShowSkipModal true] := by
  have hpre := runActions_skipped_prefix actions s hnostart
  refine ⟨hpre, fun id hid => hpre.subset hid, ?_, ?_, ?_, ?_⟩
  · rw [step_selectAnswer]
  · rw [step_selectAnswer]
    simp [Answers.get_set]
  · rw [step_selectAnswer]
    exact hskipped
  · rw [step_selectAnswer]
    have hlen : 0 < s.skippedQuestions.length := List.length_pos_of_mem hskipped
    simp [handleSubmitQuiz, hsub, JSValue.orFalse, JSValue.truthy, hlen]

/-- Witness for C27: question 12 is skipped, then answered, then others are visited. -/
theorem C27_skipped_only_grows_witness :
    12 ∈ skippedState.skippedQuestions ∧
    12 ∈ (runActions skippedState
      [Action.selectAnswer 12 1, Action.previous, Action.skip,
        Action.tick skippedState]).skippedQuestions ∧
    handleSubmitQuiz (step skippedState (Action.selectAnswer 12 1)) (JSValue.bool false)
      ApiOutcome.resolved = [Effect.setShowSkipModal true] :=
  ⟨by decide,
   (C27_skipped_only_grows skippedState
      [Action.selectAnswer 12 1, Action.previous, Action.skip, Action.tick skippedState] 12 1
      ApiOutcome.resolved (by decide) (by decide) (by decide)).2.1 12 (by decide),
   (C27_skipped_only_grows skippedState
      [Action.selectAnswer 12 1, Action.previous, Action.skip, Action.tick skippedState] 12 1
      ApiOutcome.resolved (by decide) (by decide) (by decide)).2.2.2.2.2⟩

/-! ## Practice quiz and challenge compute the same result -/

/-- The two loops keep the same pair of counters. -/
theorem foldl_practice_eq_tally (answers : Answers) (qs : List Question) (acc : Tally) :
    qs.foldl (practiceTallyStep answers) (acc.correctAnswers, acc.wrongAnswers) =
      ((qs.foldl (tallyStep answers) acc).correctAnswers,
       (qs.foldl (tallyStep answers) acc).wrongAnswers) := by
  induction qs generalizing acc with
  | nil => rfl
  | cons q qs ih =>
    simp only [List.foldl_cons]
    have hstep : practiceTallyStep answers (acc.correctAnswers, acc.wrongAnswers) q =
        ((tallyStep answers acc q).correctAnswers, (tallyStep answers acc q).wrongAnswers) := by
      unfold practiceTallyStep tallyStep
      cases h : answers.get q.id with
      | none => simp
      | some a =>
        by_cases hc : a = q.answer
        · simp [hc]
        · simp [hc]
    rw [hstep]
    exact ih (tallyStep answers acc q)

/-- C28: for every question list and answers map, the result computed by the practice quiz and
the result computed by the challenge have the same `correct`, `wrong`, `unanswered`, `total`,
`score` and `percentage`. -/
theorem C28_practice_equals_challenge (questions : List Question) (answers : Answers)
    (timeTaken : Int) :
    (practiceResult questions answers).correct =
      (computeResult questions answers timeTaken).correct ∧
    (practiceResult questions answers).wrong =
      (computeResult questions answers timeTaken).wrong ∧
    (practiceResult questions answers).unanswered =
      (computeResult questions answers timeTaken).unanswered ∧
    (practiceResult questions answers).total =
      (computeResult questions answers timeTaken).total ∧
    (practiceResult questions answers).score =
      (computeResult questions answers timeTaken).score ∧
    (practiceResult questions answers).percentage =
      (computeResult questions answers timeTaken).percentage := by
  have h := foldl_practice_eq_tally answers questions ⟨0, 0, []⟩
  simp only [practiceResult, computeResult, tally] at h ⊢
  rw [h]
  exact ⟨rfl, rfl, rfl, trivial, rfl, rfl⟩

/-! ## Authentication context -/

/-- Every settled call keeps at most one of `user` and `admin` set. -/
theorem auth_apply_exclusive (a : AuthState) (e : AuthEvent)
    (h : a.user = none ∨ a.admin = none) :
    (a.apply e).user = none ∨ (a.apply e).admin = none := by
  cases e with
  | loginResolved t u => exact Or.inr rfl
  | loginRejected => exact h
  | adminLoginResolved t ad => exact Or.inl rfl
  | adminLoginRejected => exact h
  | registerResolved => exact h
  | registerRejected => exact h
  | profileResolved ad u =>
    cases ad with
    | some adminData => exact Or.inl rfl
    | none =>
      cases u with
      | some userData => exact Or.inr rfl
      | none => exact h
  | profileRejected status =>
    simp only [AuthState.apply]
    split_ifs
    · exact Or.inl rfl
    · exact h
  | logout => exact Or.inl rfl

/-- Any sequence of settled calls keeps at most one of `user` and `admin` set. -/
theorem auth_run_exclusive (events : List AuthEvent) : ∀ (a : AuthState),
    (a.user = none ∨ a.admin = none) →
    ((a.run events).user = none ∨ (a.run events).admin = none) := by
  induction events with
  | nil => intro a h; exact h
  | cons e rest ih =>
    intro a h
    exact ih (a.apply e) (auth_apply_exclusive a e h)

/-- C30: starting with at most one of `user` and `admin` set (at mount both are `null`), after
every sequence of settled `login`, `adminLogin`, `register`, `fetchProfile` and `logout` calls
at most one of `user` and `admin` is set, so `isUser` and `isAdmin` are never both true, and
`isAuthenticated = isUser || isAdmin`; after a further logout both are `null` and the token is
cleared in the state, in `localStorage` and in the REST client. -/
theorem C30_user_admin_exclusive (a : AuthState) (events : List AuthEvent)
    (hstart : a.user = none ∨ a.admin = none) :
    ((a.run events).user = none ∨ (a.run events).admin = none) ∧
    ¬ ((a.run events).isUser = true ∧ (a.run events).isAdmin = true) ∧
    (a.run events).isAuthenticated = ((a.run events).isUser || (a.run events).isAdmin) ∧
    ((a.run (events ++ [AuthEvent.logout])).user = none ∧
     (a.run (events ++ [AuthEvent.logout])).admin = none ∧
     (a.run (events ++ [AuthEvent.logout])).token = none ∧
     (a.run (events ++ [AuthEvent.logout])).storedToken = none ∧
     (a.run (events ++ [AuthEvent.logout])).apiToken = none) := by
  have hex := auth_run_exclusive events a hstart
  refine ⟨hex, ?_, ?_, ?_⟩
  · rintro ⟨hu, had⟩
    simp only [AuthState.isUser, AuthState.isAdmin] at hu had
    rcases hex with h | h
    · rw [h] at hu; cases hu
    · rw [h] at had; cases had
  · simp only [AuthState.isAuthenticated, AuthState.isUser, AuthState.isAdmin]
    cases (a.run events).user <;> cases (a.run events).admin <;> rfl
  · simp [AuthState.run, List.foldl_append, AuthState.apply, AuthState.logout]

/-- Witness for C30: a user login, a profile answer naming an admin, a failed admin login. -/
theorem C30_user_admin_exclusive_witness :
    (AuthState.initial.run
        [AuthEvent.loginResolved "jwt" (some "asha"),
         AuthEvent.profileResolved (some "root") (some "asha"),
         AuthEvent.adminLoginRejected]).user = none ∨
    (AuthState.initial.run
        [AuthEvent.loginResolved "jwt" (some "asha"),
         AuthEvent.profileResolved (some "root") (some "asha"),
         AuthEvent.adminLoginRejected]).admin = none :=
  (C30_user_admin_exclusive AuthState.initial
    [AuthEvent.loginResolved "jwt" (some "asha"),
     AuthEvent.profileResolved (some "root") (some "asha"),
     AuthEvent.adminLoginRejected] (Or.inl rfl)).1

/-! ## The percentage is defined and at most 100 -/

/-- The highest set bit brackets a positive number between two powers of two. -/
theorem floorLog2Aux_spec (fuel : Nat) : ∀ (n : Nat), 0 < n → n ≤ fuel →
    2 ^ floorLog2Aux fuel n ≤ n ∧ n < 2 ^ (floorLog2Aux fuel n + 1) := by
  induction fuel with
  | zero => intro n h1 h2; omega
  | succ fuel ih =>
    intro n hpos hle
    by_cases h : n < 2
    · have hn : n = 1 := by omega
      subst hn
      simp [floorLog2Aux]
    · have hhalf := ih (n / 2) (by omega) (by omega)
      simp only [floorLog2Aux, h, if_false]
      obtain ⟨h1, h2⟩ := hhalf
      rw [Nat.pow_succ, Nat.pow_succ]
      rw [Nat.pow_succ] at h2
      constructor
      · omega
      · omega

/-- A number that is at most `100 * d` has its highest bit at most 7 places above that of
`d`. -/
theorem floorLog2_le_of_le_mul (n d : Nat) (hd : 0 < d) (h : n ≤ 100 * d) :
    floorLog2 n ≤ floorLog2 d + 7 := by
  by_cases hn : n = 0
  · subst hn
    simp [floorLog2, floorLog2Aux]
  · have hnspec := (floorLog2Aux_spec n n (by omega) (le_refl n)).1
    have hdspec := (floorLog2Aux_spec d d hd (le_refl d)).2
    have hlt : 2 ^ floorLog2 n < 2 ^ (floorLog2 d + 8) := by
      have h8 : 2 ^ (floorLog2 d + 8) = 2 ^ (floorLog2 d + 1) * 128 := by
        rw [show floorLog2 d + 8 = (floorLog2 d + 1) + 7 from rfl, Nat.pow_add]
      rw [h8]
      unfold floorLog2
      omega
    have := (Nat.pow_lt_pow_iff_right (by omega : 1 < 2)).mp hlt
    omega

/-- The binade found is never above the difference of the highest bits. -/
theorem binade_le (n d : Nat) : binade n d ≤ (floorLog2 n : Int) - (floorLog2 d : Int) := by
  unfold binade
  simp only
  split_ifs <;> omega

/-- Rounding to nearest does not go above an integer bound of the quotient. -/
theorem roundHalfEven_le (N D K : Nat) (hD : 0 < D) (h : N ≤ K * D) :
    roundHalfEven N D ≤ K := by
  have hq : N / D ≤ K := Nat.div_le_of_le_mul (by rw [Nat.mul_comm]; exact h)
  have hdm := Nat.div_add_mod N D
  unfold roundHalfEven
  simp only
  by_cases hK : N / D = K
  · have hr : N % D = 0 := by
      rw [hK, Nat.mul_comm] at hdm
      omega
    rw [hr]
    simp [hD, hK]
  · have hlt : N / D < K := by omega
    split_ifs <;> omega

/-- For a quotient of at most `K ≤ 100`, the double nearest to it is at most `K`, and its
denominator is positive. -/
theorem roundDouble_le (n d K : Nat) (hd : 0 < d) (h : n ≤ K * d) (hK : K ≤ 100) :
    (roundDouble n d).1 ≤ K * (roundDouble n d).2 ∧ 0 < (roundDouble n d).2 := by
  have h100 : n ≤ 100 * d := le_trans h (Nat.mul_le_mul_right d hK)
  have hlog := floorLog2_le_of_le_mul n d hd h100
  have hb := binade_le n d
  have hs : 0 ≤ (52 : Int) - binade n d := by omega
  unfold roundDouble
  simp only [hs, if_true]
  refine ⟨?_, Nat.pow_pos (by omega)⟩
  apply roundHalfEven_le _ _ _ hd
  calc n * 2 ^ ((52 : Int) - binade n d).toNat
      ≤ (K * d) * 2 ^ ((52 : Int) - binade n d).toNat := Nat.mul_le_mul_right _ h
    _ = K * 2 ^ ((52 : Int) - binade n d).toNat * d := by ring

/-- With a positive total and at most that many correct answers, the percentage expression is
a number between 0 and 100. -/
theorem percentageOf_range (c t : Nat) (ht : 0 < t) (hc : c ≤ t) :
    ∃ p : Int, percentageOf c t = some p ∧ 0 ≤ p ∧ p ≤ 100 := by
  unfold percentageOf
  have ht0 : t ≠ 0 := by omega
  simp only [ht0, if_false]
  by_cases hc0 : c = 0
  · exact ⟨0, by simp [hc0], le_refl _, by omega⟩
  · simp only [hc0, if_false]
    obtain ⟨hx, hxpos⟩ := roundDouble_le c t 1 ht (by omega) (by omega)
    obtain ⟨hy, hypos⟩ := roundDouble_le ((roundDouble c t).1 * 100) (roundDouble c t).2 100
      hxpos (by omega) (le_refl _)
    refine ⟨_, rfl, by omega, ?_⟩
    have hlt : mathRound (roundDouble ((roundDouble c t).1 * 100) (roundDouble c t).2).1
        (roundDouble ((roundDouble c t).1 * 100) (roundDouble c t).2).2 < 101 := by
      unfold mathRound
      apply Nat.div_lt_of_lt_mul
      omega
    omega

/-- A settled fetch leaves a challenge only together with a non-empty question list. -/
theorem load_keeps_questions (s : State) (outcome : FetchOutcome)
    (h : s.challenge ≠ none → s.questions ≠ []) :
    (applyEffects s (loadChallengeData outcome)).challenge ≠ none →
      (applyEffects s (loadChallengeData outcome)).questions ≠ [] := by
  cases outcome with
  | rejected e => simpa [loadChallengeData, applyEffects, applyEffect] using h
  | resolved c qs =>
    cases c with
    | none => simpa [loadChallengeData, applyEffects, applyEffect] using h
    | some c =>
      cases qs with
      | none => simpa [loadChallengeData, applyEffects, applyEffect] using h
      | some qs =>
        by_cases hlen : qs.length = 0
        · simpa [loadChallengeData, applyEffects, applyEffect, hlen] using h
        · intro _
          have hne : qs ≠ [] := fun e => hlen (by rw [e]; rfl)
          simpa [loadChallengeData, applyEffects, applyEffect, hlen] using hne

/-- In every state of a page visit a challenge is stored only together with a non-empty
question list. -/
theorem runPage_keeps_questions (events : List PageEvent) : ∀ (s : State),
    (s.challenge ≠ none → s.questions ≠ []) →
    ((runPage s events).challenge ≠ none → (runPage s events).questions ≠ []) := by
  induction events with
  | nil => intro s h; exact h
  | cons e rest ih =>
    intro s h
    apply ih (pageStep s e)
    cases e with
    | loaded outcome => exact load_keeps_questions s outcome h
    | action a =>
      simp only [pageStep]
      rw [(step_frame s a).1, (step_frame s a).2.1]
      exact h

/-- The loop counts at most as many correct answers as there are questions. -/
theorem tally_correct_le (questions : List Question) (answers : Answers) :
    (tally questions answers).correctAnswers ≤ questions.length := by
  have h := (foldl_tallyStep_counts answers questions ⟨0, 0, []⟩).1
  simp only [Nat.zero_add] at h
  unfold tally
  rw [h]
  exact List.countP_le_length _

/-- C29: in every state reached from the mounted component by settled fetches and session
actions, a stored challenge comes with a non-empty question list (`loadChallengeData` writes
both only after its emptiness check). For a non-empty question list the division is by a
positive number and the computed percentage is a number between 0 and 100; so is the
percentage of every result `handleSubmitQuiz` stores in such a state. -/
theorem C29_percentage_defined_in_range (events : List PageEvent) (questions : List Question)
    (answers : Answers) (timeTaken : Int) (forceSubmit : JSValue) (outcome : ApiOutcome)
    (hne : questions ≠ []) :
    ((runPage initialState events).challenge ≠ none →
      0 < (runPage initialState events).questions.length) ∧
    (∃ p : Int, (computeResult questions answers timeTaken).percentage = some p ∧
      0 ≤ p ∧ p ≤ 100) ∧
    (∀ r, Effect.setResult (some r) ∈
        handleSubmitQuiz (runPage initialState events) forceSubmit outcome →
      ∃ p : Int, r.percentage = some p ∧ 0 ≤ p ∧ p ≤ 100) := by
  have hinv := runPage_keeps_questions events initialState (by simp [initialState])
  have hrange : ∀ (qs : List Question) (ans : Answers) (t : Int), qs ≠ [] →
      ∃ p : Int, (computeResult qs ans t).percentage = some p ∧ 0 ≤ p ∧ p ≤ 100 := by
    intro qs ans t hqs
    exact percentageOf_range _ _ (List.length_pos.mpr hqs) (tally_correct_le qs ans)
  refine ⟨fun h => List.length_pos.mpr (hinv h), hrange questions answers timeTaken hne, ?_⟩
  intro r hr
  generalize runPage initialState events = s at hinv hr
  unfold handleSubmitQuiz at hr
  split_ifs at hr
  · simp at hr
  · simp at hr
  · cases hc : s.challenge with
    | none => simp [hc] at hr
    | some challenge =>
      have hqs : s.questions ≠ [] := hinv (by rw [hc]; simp)
      cases outcome with
      | resolved =>
        simp [hc] at hr
        rw [hr]
        exact hrange _ _ _ hqs
      | rejected => simp [hc] at hr

/-- Witness for C29: the three-question session of the specification. -/
theorem C29_percentage_defined_in_range_witness :
    ∃ p : Int, (computeResult threeQuestions mixedAnswers 120).percentage = some p ∧
      0 ≤ p ∧ p ≤ 100 :=
  (C29_percentage_defined_in_range [] threeQuestions mixedAnswers 120 (JSValue.bool true)
    ApiOutcome.resolved (by decide)).2.1

end QuizBattle
